import Mathlib

/-
Verification of the HNGi13 Stage 1 string-analyzer service (server.js).

The service is embedded shallowly: JavaScript strings are modelled as Lean
strings (sequences of Unicode scalar values; JS length in UTF-16 code units
is recovered by utf16Len), the in-memory Map is an association list in
insertion order, and each Express handler becomes a pure function from its
request data and the store to a status/body pair and the next store.
Platform primitives (the whitespace regex class, Number(), toLowerCase,
route dispatch order) are modelled explicitly next to their first use.
-/

set_option autoImplicit false
set_option exponentiation.threshold 6000
set_option maxRecDepth 4000

namespace StringAnalyzer

/-! ## Character classes and JS string primitives -/

/-- Membership in the JavaScript regex class backslash-s, which is also the
set trimmed by String.prototype.trim: ASCII whitespace, NBSP, the Unicode
space separators, the line separators and the BOM. -/
def jsWs (c : Char) : Bool :=
  c = ' ' || c = '\t' || c = '\n' || c.val = 11 || c.val = 12 || c = '\r' ||
  c.val = 0xa0 || c.val = 0x1680 || (0x2000 ≤ c.val && c.val ≤ 0x200a) ||
  c.val = 0x2028 || c.val = 0x2029 || c.val = 0x202f || c.val = 0x205f ||
  c.val = 0x3000 || c.val = 0xfeff

/-- Decimal digit, the regex class backslash-d. -/
def jsDigit (c : Char) : Bool := '0' ≤ c && c ≤ '9'

/-- Value of a string of decimal digits, most significant first. -/
def digitsToNat (l : List Char) : Nat :=
  l.foldl (fun a c => a * 10 + (c.toNat - 48)) 0

/-- Length of a string counted in UTF-16 code units, which is what the
JavaScript expression value.length returns: astral characters count twice. -/
def utf16Width (c : Char) : Nat := if c.val < 0x10000 then 1 else 2

/-- Sum of the UTF-16 widths of the characters: the JS string length. -/
def utf16Len (s : String) : Nat := (s.data.map utf16Width).sum

/-- Model of String.prototype.trim: drop leading and trailing jsWs. -/
def jsTrim (l : List Char) : List Char :=
  ((l.dropWhile jsWs).reverse.dropWhile jsWs).reverse

mutual

/-- Model of str.split(regex backslash-s+) while inside a token: acc holds the
characters of the current field in reverse. -/
def splitWsAux : List Char → List Char → List (List Char)
  | [], acc => [acc.reverse]
  | c :: rest, acc =>
    if jsWs c then acc.reverse :: splitWsStart rest else splitWsAux rest (c :: acc)

/-- Model of str.split(regex backslash-s+) just after a separator run: skip
the rest of the run, then start the next field (an empty trailing field when
the string ends inside the run, as JS split produces). -/
def splitWsStart : List Char → List (List Char)
  | [] => [[]]
  | c :: rest => if jsWs c then splitWsStart rest else splitWsAux rest [c]

end

/-- Words of the input as the source computes them:
value.trim().length === 0 ? [] : value.trim().split(backslash-s+). -/
def wordsOf (value : List Char) : List (List Char) :=
  if jsTrim value = [] then [] else splitWsAux (jsTrim value) []

/-- Membership in the regex class [0-9a-z] with the i flag, as used by
sanitizeForPalindrome. -/
def isJsAlnum (c : Char) : Bool :=
  ('0' ≤ c && c ≤ '9') || ('a' ≤ c && c ≤ 'z') || ('A' ≤ c && c ≤ 'Z')

/-- ASCII lowercasing of one character, the effect of toLowerCase on the
ASCII range (the only range sanitizeForPalindrome leaves behind). -/
def toLowerAscii (c : Char) : Char :=
  if 'A' ≤ c && c ≤ 'Z' then Char.ofNat (c.toNat + 32) else c

/-- Model of s.replace(regex [caret 0-9a-z] with gi flags, "").toLowerCase():
keep only ASCII alphanumerics, then lowercase them. -/
def sanitizeForPalindrome (l : List Char) : List Char :=
  (l.filter isJsAlnum).map toLowerAscii

set_option maxHeartbeats 1000000 in
/-- Slice 1 of the lowercase mapping table. -/
def lowerTable1 : List (Nat × List Nat) := [
  (0xc0, [0xe0]), (0xc1, [0xe1]), (0xc2, [0xe2]), (0xc3, [0xe3]),
  (0xc4, [0xe4]), (0xc5, [0xe5]), (0xc6, [0xe6]), (0xc7, [0xe7]),
  (0xc8, [0xe8]), (0xc9, [0xe9]), (0xca, [0xea]), (0xcb, [0xeb]),
  (0xcc, [0xec]), (0xcd, [0xed]), (0xce, [0xee]), (0xcf, [0xef]),
  (0xd0, [0xf0]), (0xd1, [0xf1]), (0xd2, [0xf2]), (0xd3, [0xf3]),
  (0xd4, [0xf4]), (0xd5, [0xf5]), (0xd6, [0xf6]), (0xd8, [0xf8]),
  (0xd9, [0xf9]), (0xda, [0xfa]), (0xdb, [0xfb]), (0xdc, [0xfc]),
  (0xdd, [0xfd]), (0xde, [0xfe]), (0x100, [0x101]), (0x102, [0x103]),
  (0x104, [0x105]), (0x106, [0x107]), (0x108, [0x109]), (0x10a, [0x10b]),
  (0x10c, [0x10d]), (0x10e, [0x10f]), (0x110, [0x111]), (0x112, [0x113]),
  (0x114, [0x115]), (0x116, [0x117]), (0x118, [0x119]), (0x11a, [0x11b]),
  (0x11c, [0x11d]), (0x11e, [0x11f]), (0x120, [0x121]), (0x122, [0x123]),
  (0x124, [0x125]), (0x126, [0x127]), (0x128, [0x129]), (0x12a, [0x12b]),
  (0x12c, [0x12d]), (0x12e, [0x12f]), (0x130, [0x69, 0x307]), (0x132, [0x133]),
  (0x134, [0x135]), (0x136, [0x137]), (0x139, [0x13a]), (0x13b, [0x13c]),
  (0x13d, [0x13e]), (0x13f, [0x140]), (0x141, [0x142]), (0x143, [0x144]),
  (0x145, [0x146]), (0x147, [0x148]), (0x14a, [0x14b]), (0x14c, [0x14d]),
  (0x14e, [0x14f]), (0x150, [0x151]), (0x152, [0x153]), (0x154, [0x155]),
  (0x156, [0x157]), (0x158, [0x159]), (0x15a, [0x15b]), (0x15c, [0x15d]),
  (0x15e, [0x15f]), (0x160, [0x161]), (0x162, [0x163]), (0x164, [0x165]),
  (0x166, [0x167]), (0x168, [0x169]), (0x16a, [0x16b]), (0x16c, [0x16d]),
  (0x16e, [0x16f]), (0x170, [0x171]), (0x172, [0x173]), (0x174, [0x175]),
  (0x176, [0x177]), (0x178, [0xff]), (0x179, [0x17a]), (0x17b, [0x17c]),
  (0x17d, [0x17e]), (0x181, [0x253]), (0x182, [0x183]), (0x184, [0x185]),
  (0x186, [0x254]), (0x187, [0x188]), (0x189, [0x256]), (0x18a, [0x257]),
  (0x18b, [0x18c]), (0x18e, [0x1dd]), (0x18f, [0x259]), (0x190, [0x25b]),
  (0x191, [0x192]), (0x193, [0x260]), (0x194, [0x263]), (0x196, [0x269]),
  (0x197, [0x268]), (0x198, [0x199]), (0x19c, [0x26f]), (0x19d, [0x272]),
  (0x19f, [0x275]), (0x1a0, [0x1a1]), (0x1a2, [0x1a3]), (0x1a4, [0x1a5]),
  (0x1a6, [0x280]), (0x1a7, [0x1a8]), (0x1a9, [0x283]), (0x1ac, [0x1ad]),
  (0x1ae, [0x288]), (0x1af, [0x1b0]), (0x1b1, [0x28a]), (0x1b2, [0x28b]),
  (0x1b3, [0x1b4]), (0x1b5, [0x1b6]), (0x1b7, [0x292]), (0x1b8, [0x1b9]),
  (0x1bc, [0x1bd]), (0x1c4, [0x1c6]), (0x1c5, [0x1c6]), (0x1c7, [0x1c9]),
  (0x1c8, [0x1c9]), (0x1ca, [0x1cc]), (0x1cb, [0x1cc]), (0x1cd, [0x1ce]),
  (0x1cf, [0x1d0]), (0x1d1, [0x1d2]), (0x1d3, [0x1d4]), (0x1d5, [0x1d6]),
  (0x1d7, [0x1d8]), (0x1d9, [0x1da]), (0x1db, [0x1dc]), (0x1de, [0x1df]),
  (0x1e0, [0x1e1]), (0x1e2, [0x1e3]), (0x1e4, [0x1e5]), (0x1e6, [0x1e7]),
  (0x1e8, [0x1e9]), (0x1ea, [0x1eb]), (0x1ec, [0x1ed]), (0x1ee, [0x1ef]),
  (0x1f1, [0x1f3]), (0x1f2, [0x1f3]), (0x1f4, [0x1f5]), (0x1f6, [0x195]),
  (0x1f7, [0x1bf]), (0x1f8, [0x1f9]), (0x1fa, [0x1fb]), (0x1fc, [0x1fd]),
  (0x1fe, [0x1ff]), (0x200, [0x201]), (0x202, [0x203]), (0x204, [0x205]),
  (0x206, [0x207]), (0x208, [0x209]), (0x20a, [0x20b]), (0x20c, [0x20d]),
  (0x20e, [0x20f]), (0x210, [0x211]), (0x212, [0x213]), (0x214, [0x215]),
  (0x216, [0x217]), (0x218, [0x219]), (0x21a, [0x21b]), (0x21c, [0x21d]),
  (0x21e, [0x21f]), (0x220, [0x19e]), (0x222, [0x223]), (0x224, [0x225]),
  (0x226, [0x227]), (0x228, [0x229]), (0x22a, [0x22b]), (0x22c, [0x22d]),
  (0x22e, [0x22f]), (0x230, [0x231]), (0x232, [0x233]), (0x23a, [0x2c65]),
  (0x23b, [0x23c]), (0x23d, [0x19a]), (0x23e, [0x2c66]), (0x241, [0x242]),
  (0x243, [0x180]), (0x244, [0x289]), (0x245, [0x28c]), (0x246, [0x247]),
  (0x248, [0x249]), (0x24a, [0x24b]), (0x24c, [0x24d]), (0x24e, [0x24f]),
  (0x370, [0x371]), (0x372, [0x373]), (0x376, [0x377]), (0x37f, [0x3f3]),
  (0x386, [0x3ac]), (0x388, [0x3ad]), (0x389, [0x3ae]), (0x38a, [0x3af]),
  (0x38c, [0x3cc]), (0x38e, [0x3cd]), (0x38f, [0x3ce]), (0x391, [0x3b1]),
  (0x392, [0x3b2]), (0x393, [0x3b3]), (0x394, [0x3b4]), (0x395, [0x3b5]),
  (0x396, [0x3b6]), (0x397, [0x3b7]), (0x398, [0x3b8]), (0x399, [0x3b9]),
  (0x39a, [0x3ba]), (0x39b, [0x3bb]), (0x39c, [0x3bc]), (0x39d, [0x3bd]),
  (0x39e, [0x3be]), (0x39f, [0x3bf]), (0x3a0, [0x3c0]), (0x3a1, [0x3c1]),
  (0x3a3, [0x3c3]), (0x3a4, [0x3c4]), (0x3a5, [0x3c5]), (0x3a6, [0x3c6]),
  (0x3a7, [0x3c7]), (0x3a8, [0x3c8]), (0x3a9, [0x3c9]), (0x3aa, [0x3ca]),
  (0x3ab, [0x3cb]), (0x3cf, [0x3d7]), (0x3d8, [0x3d9]), (0x3da, [0x3db]),
  (0x3dc, [0x3dd]), (0x3de, [0x3df]), (0x3e0, [0x3e1]), (0x3e2, [0x3e3]),
  (0x3e4, [0x3e5]), (0x3e6, [0x3e7]), (0x3e8, [0x3e9]), (0x3ea, [0x3eb]),
  (0x3ec, [0x3ed]), (0x3ee, [0x3ef]), (0x3f4, [0x3b8]), (0x3f7, [0x3f8]),
  (0x3f9, [0x3f2]), (0x3fa, [0x3fb]), (0x3fd, [0x37b]), (0x3fe, [0x37c]),
  (0x3ff, [0x37d]), (0x400, [0x450]), (0x401, [0x451]), (0x402, [0x452]),
  (0x403, [0x453]), (0x404, [0x454]), (0x405, [0x455]), (0x406, [0x456]),
  (0x407, [0x457]), (0x408, [0x458]), (0x409, [0x459]), (0x40a, [0x45a]),
  (0x40b, [0x45b]), (0x40c, [0x45c]), (0x40d, [0x45d]), (0x40e, [0x45e]),
  (0x40f, [0x45f]), (0x410, [0x430]), (0x411, [0x431]), (0x412, [0x432]),
  (0x413, [0x433]), (0x414, [0x434]), (0x415, [0x435]), (0x416, [0x436]),
  (0x417, [0x437]), (0x418, [0x438]), (0x419, [0x439]), (0x41a, [0x43a]),
  (0x41b, [0x43b]), (0x41c, [0x43c]), (0x41d, [0x43d]), (0x41e, [0x43e]),
  (0x41f, [0x43f]), (0x420, [0x440]), (0x421, [0x441]), (0x422, [0x442]),
  (0x423, [0x443]), (0x424, [0x444]), (0x425, [0x445]), (0x426, [0x446]),
  (0x427, [0x447]), (0x428, [0x448]), (0x429, [0x449]), (0x42a, [0x44a])
]

set_option maxHeartbeats 1000000 in
/-- Slice 2 of the lowercase mapping table. -/
def lowerTable2 : List (Nat × List Nat) := [
  (0x42b, [0x44b]), (0x42c, [0x44c]), (0x42d, [0x44d]), (0x42e, [0x44e]),
  (0x42f, [0x44f]), (0x460, [0x461]), (0x462, [0x463]), (0x464, [0x465]),
  (0x466, [0x467]), (0x468, [0x469]), (0x46a, [0x46b]), (0x46c, [0x46d]),
  (0x46e, [0x46f]), (0x470, [0x471]), (0x472, [0x473]), (0x474, [0x475]),
  (0x476, [0x477]), (0x478, [0x479]), (0x47a, [0x47b]), (0x47c, [0x47d]),
  (0x47e, [0x47f]), (0x480, [0x481]), (0x48a, [0x48b]), (0x48c, [0x48d]),
  (0x48e, [0x48f]), (0x490, [0x491]), (0x492, [0x493]), (0x494, [0x495]),
  (0x496, [0x497]), (0x498, [0x499]), (0x49a, [0x49b]), (0x49c, [0x49d]),
  (0x49e, [0x49f]), (0x4a0, [0x4a1]), (0x4a2, [0x4a3]), (0x4a4, [0x4a5]),
  (0x4a6, [0x4a7]), (0x4a8, [0x4a9]), (0x4aa, [0x4ab]), (0x4ac, [0x4ad]),
  (0x4ae, [0x4af]), (0x4b0, [0x4b1]), (0x4b2, [0x4b3]), (0x4b4, [0x4b5]),
  (0x4b6, [0x4b7]), (0x4b8, [0x4b9]), (0x4ba, [0x4bb]), (0x4bc, [0x4bd]),
  (0x4be, [0x4bf]), (0x4c0, [0x4cf]), (0x4c1, [0x4c2]), (0x4c3, [0x4c4]),
  (0x4c5, [0x4c6]), (0x4c7, [0x4c8]), (0x4c9, [0x4ca]), (0x4cb, [0x4cc]),
  (0x4cd, [0x4ce]), (0x4d0, [0x4d1]), (0x4d2, [0x4d3]), (0x4d4, [0x4d5]),
  (0x4d6, [0x4d7]), (0x4d8, [0x4d9]), (0x4da, [0x4db]), (0x4dc, [0x4dd]),
  (0x4de, [0x4df]), (0x4e0, [0x4e1]), (0x4e2, [0x4e3]), (0x4e4, [0x4e5]),
  (0x4e6, [0x4e7]), (0x4e8, [0x4e9]), (0x4ea, [0x4eb]), (0x4ec, [0x4ed]),
  (0x4ee, [0x4ef]), (0x4f0, [0x4f1]), (0x4f2, [0x4f3]), (0x4f4, [0x4f5]),
  (0x4f6, [0x4f7]), (0x4f8, [0x4f9]), (0x4fa, [0x4fb]), (0x4fc, [0x4fd]),
  (0x4fe, [0x4ff]), (0x500, [0x501]), (0x502, [0x503]), (0x504, [0x505]),
  (0x506, [0x507]), (0x508, [0x509]), (0x50a, [0x50b]), (0x50c, [0x50d]),
  (0x50e, [0x50f]), (0x510, [0x511]), (0x512, [0x513]), (0x514, [0x515]),
  (0x516, [0x517]), (0x518, [0x519]), (0x51a, [0x51b]), (0x51c, [0x51d]),
  (0x51e, [0x51f]), (0x520, [0x521]), (0x522, [0x523]), (0x524, [0x525]),
  (0x526, [0x527]), (0x528, [0x529]), (0x52a, [0x52b]), (0x52c, [0x52d]),
  (0x52e, [0x52f]), (0x531, [0x561]), (0x532, [0x562]), (0x533, [0x563]),
  (0x534, [0x564]), (0x535, [0x565]), (0x536, [0x566]), (0x537, [0x567]),
  (0x538, [0x568]), (0x539, [0x569]), (0x53a, [0x56a]), (0x53b, [0x56b]),
  (0x53c, [0x56c]), (0x53d, [0x56d]), (0x53e, [0x56e]), (0x53f, [0x56f]),
  (0x540, [0x570]), (0x541, [0x571]), (0x542, [0x572]), (0x543, [0x573]),
  (0x544, [0x574]), (0x545, [0x575]), (0x546, [0x576]), (0x547, [0x577]),
  (0x548, [0x578]), (0x549, [0x579]), (0x54a, [0x57a]), (0x54b, [0x57b]),
  (0x54c, [0x57c]), (0x54d, [0x57d]), (0x54e, [0x57e]), (0x54f, [0x57f]),
  (0x550, [0x580]), (0x551, [0x581]), (0x552, [0x582]), (0x553, [0x583]),
  (0x554, [0x584]), (0x555, [0x585]), (0x556, [0x586]), (0x10a0, [0x2d00]),
  (0x10a1, [0x2d01]), (0x10a2, [0x2d02]), (0x10a3, [0x2d03]), (0x10a4, [0x2d04]),
  (0x10a5, [0x2d05]), (0x10a6, [0x2d06]), (0x10a7, [0x2d07]), (0x10a8, [0x2d08]),
  (0x10a9, [0x2d09]), (0x10aa, [0x2d0a]), (0x10ab, [0x2d0b]), (0x10ac, [0x2d0c]),
  (0x10ad, [0x2d0d]), (0x10ae, [0x2d0e]), (0x10af, [0x2d0f]), (0x10b0, [0x2d10]),
  (0x10b1, [0x2d11]), (0x10b2, [0x2d12]), (0x10b3, [0x2d13]), (0x10b4, [0x2d14]),
  (0x10b5, [0x2d15]), (0x10b6, [0x2d16]), (0x10b7, [0x2d17]), (0x10b8, [0x2d18]),
  (0x10b9, [0x2d19]), (0x10ba, [0x2d1a]), (0x10bb, [0x2d1b]), (0x10bc, [0x2d1c]),
  (0x10bd, [0x2d1d]), (0x10be, [0x2d1e]), (0x10bf, [0x2d1f]), (0x10c0, [0x2d20]),
  (0x10c1, [0x2d21]), (0x10c2, [0x2d22]), (0x10c3, [0x2d23]), (0x10c4, [0x2d24]),
  (0x10c5, [0x2d25]), (0x10c7, [0x2d27]), (0x10cd, [0x2d2d]), (0x13a0, [0xab70]),
  (0x13a1, [0xab71]), (0x13a2, [0xab72]), (0x13a3, [0xab73]), (0x13a4, [0xab74]),
  (0x13a5, [0xab75]), (0x13a6, [0xab76]), (0x13a7, [0xab77]), (0x13a8, [0xab78]),
  (0x13a9, [0xab79]), (0x13aa, [0xab7a]), (0x13ab, [0xab7b]), (0x13ac, [0xab7c]),
  (0x13ad, [0xab7d]), (0x13ae, [0xab7e]), (0x13af, [0xab7f]), (0x13b0, [0xab80]),
  (0x13b1, [0xab81]), (0x13b2, [0xab82]), (0x13b3, [0xab83]), (0x13b4, [0xab84]),
  (0x13b5, [0xab85]), (0x13b6, [0xab86]), (0x13b7, [0xab87]), (0x13b8, [0xab88]),
  (0x13b9, [0xab89]), (0x13ba, [0xab8a]), (0x13bb, [0xab8b]), (0x13bc, [0xab8c]),
  (0x13bd, [0xab8d]), (0x13be, [0xab8e]), (0x13bf, [0xab8f]), (0x13c0, [0xab90]),
  (0x13c1, [0xab91]), (0x13c2, [0xab92]), (0x13c3, [0xab93]), (0x13c4, [0xab94]),
  (0x13c5, [0xab95]), (0x13c6, [0xab96]), (0x13c7, [0xab97]), (0x13c8, [0xab98]),
  (0x13c9, [0xab99]), (0x13ca, [0xab9a]), (0x13cb, [0xab9b]), (0x13cc, [0xab9c]),
  (0x13cd, [0xab9d]), (0x13ce, [0xab9e]), (0x13cf, [0xab9f]), (0x13d0, [0xaba0]),
  (0x13d1, [0xaba1]), (0x13d2, [0xaba2]), (0x13d3, [0xaba3]), (0x13d4, [0xaba4]),
  (0x13d5, [0xaba5]), (0x13d6, [0xaba6]), (0x13d7, [0xaba7]), (0x13d8, [0xaba8]),
  (0x13d9, [0xaba9]), (0x13da, [0xabaa]), (0x13db, [0xabab]), (0x13dc, [0xabac]),
  (0x13dd, [0xabad]), (0x13de, [0xabae]), (0x13df, [0xabaf]), (0x13e0, [0xabb0]),
  (0x13e1, [0xabb1]), (0x13e2, [0xabb2]), (0x13e3, [0xabb3]), (0x13e4, [0xabb4]),
  (0x13e5, [0xabb5]), (0x13e6, [0xabb6]), (0x13e7, [0xabb7]), (0x13e8, [0xabb8]),
  (0x13e9, [0xabb9]), (0x13ea, [0xabba]), (0x13eb, [0xabbb]), (0x13ec, [0xabbc]),
  (0x13ed, [0xabbd]), (0x13ee, [0xabbe]), (0x13ef, [0xabbf]), (0x13f0, [0x13f8]),
  (0x13f1, [0x13f9]), (0x13f2, [0x13fa]), (0x13f3, [0x13fb]), (0x13f4, [0x13fc]),
  (0x13f5, [0x13fd]), (0x1c90, [0x10d0]), (0x1c91, [0x10d1]), (0x1c92, [0x10d2]),
  (0x1c93, [0x10d3]), (0x1c94, [0x10d4]), (0x1c95, [0x10d5]), (0x1c96, [0x10d6]),
  (0x1c97, [0x10d7]), (0x1c98, [0x10d8]), (0x1c99, [0x10d9]), (0x1c9a, [0x10da]),
  (0x1c9b, [0x10db]), (0x1c9c, [0x10dc]), (0x1c9d, [0x10dd]), (0x1c9e, [0x10de]),
  (0x1c9f, [0x10df]), (0x1ca0, [0x10e0]), (0x1ca1, [0x10e1]), (0x1ca2, [0x10e2]),
  (0x1ca3, [0x10e3]), (0x1ca4, [0x10e4]), (0x1ca5, [0x10e5]), (0x1ca6, [0x10e6]),
  (0x1ca7, [0x10e7]), (0x1ca8, [0x10e8]), (0x1ca9, [0x10e9]), (0x1caa, [0x10ea]),
  (0x1cab, [0x10eb]), (0x1cac, [0x10ec]), (0x1cad, [0x10ed]), (0x1cae, [0x10ee])
]

set_option maxHeartbeats 1000000 in
/-- Slice 3 of the lowercase mapping table. -/
def lowerTable3 : List (Nat × List Nat) := [
  (0x1caf, [0x10ef]), (0x1cb0, [0x10f0]), (0x1cb1, [0x10f1]), (0x1cb2, [0x10f2]),
  (0x1cb3, [0x10f3]), (0x1cb4, [0x10f4]), (0x1cb5, [0x10f5]), (0x1cb6, [0x10f6]),
  (0x1cb7, [0x10f7]), (0x1cb8, [0x10f8]), (0x1cb9, [0x10f9]), (0x1cba, [0x10fa]),
  (0x1cbd, [0x10fd]), (0x1cbe, [0x10fe]), (0x1cbf, [0x10ff]), (0x1e00, [0x1e01]),
  (0x1e02, [0x1e03]), (0x1e04, [0x1e05]), (0x1e06, [0x1e07]), (0x1e08, [0x1e09]),
  (0x1e0a, [0x1e0b]), (0x1e0c, [0x1e0d]), (0x1e0e, [0x1e0f]), (0x1e10, [0x1e11]),
  (0x1e12, [0x1e13]), (0x1e14, [0x1e15]), (0x1e16, [0x1e17]), (0x1e18, [0x1e19]),
  (0x1e1a, [0x1e1b]), (0x1e1c, [0x1e1d]), (0x1e1e, [0x1e1f]), (0x1e20, [0x1e21]),
  (0x1e22, [0x1e23]), (0x1e24, [0x1e25]), (0x1e26, [0x1e27]), (0x1e28, [0x1e29]),
  (0x1e2a, [0x1e2b]), (0x1e2c, [0x1e2d]), (0x1e2e, [0x1e2f]), (0x1e30, [0x1e31]),
  (0x1e32, [0x1e33]), (0x1e34, [0x1e35]), (0x1e36, [0x1e37]), (0x1e38, [0x1e39]),
  (0x1e3a, [0x1e3b]), (0x1e3c, [0x1e3d]), (0x1e3e, [0x1e3f]), (0x1e40, [0x1e41]),
  (0x1e42, [0x1e43]), (0x1e44, [0x1e45]), (0x1e46, [0x1e47]), (0x1e48, [0x1e49]),
  (0x1e4a, [0x1e4b]), (0x1e4c, [0x1e4d]), (0x1e4e, [0x1e4f]), (0x1e50, [0x1e51]),
  (0x1e52, [0x1e53]), (0x1e54, [0x1e55]), (0x1e56, [0x1e57]), (0x1e58, [0x1e59]),
  (0x1e5a, [0x1e5b]), (0x1e5c, [0x1e5d]), (0x1e5e, [0x1e5f]), (0x1e60, [0x1e61]),
  (0x1e62, [0x1e63]), (0x1e64, [0x1e65]), (0x1e66, [0x1e67]), (0x1e68, [0x1e69]),
  (0x1e6a, [0x1e6b]), (0x1e6c, [0x1e6d]), (0x1e6e, [0x1e6f]), (0x1e70, [0x1e71]),
  (0x1e72, [0x1e73]), (0x1e74, [0x1e75]), (0x1e76, [0x1e77]), (0x1e78, [0x1e79]),
  (0x1e7a, [0x1e7b]), (0x1e7c, [0x1e7d]), (0x1e7e, [0x1e7f]), (0x1e80, [0x1e81]),
  (0x1e82, [0x1e83]), (0x1e84, [0x1e85]), (0x1e86, [0x1e87]), (0x1e88, [0x1e89]),
  (0x1e8a, [0x1e8b]), (0x1e8c, [0x1e8d]), (0x1e8e, [0x1e8f]), (0x1e90, [0x1e91]),
  (0x1e92, [0x1e93]), (0x1e94, [0x1e95]), (0x1e9e, [0xdf]), (0x1ea0, [0x1ea1]),
  (0x1ea2, [0x1ea3]), (0x1ea4, [0x1ea5]), (0x1ea6, [0x1ea7]), (0x1ea8, [0x1ea9]),
  (0x1eaa, [0x1eab]), (0x1eac, [0x1ead]), (0x1eae, [0x1eaf]), (0x1eb0, [0x1eb1]),
  (0x1eb2, [0x1eb3]), (0x1eb4, [0x1eb5]), (0x1eb6, [0x1eb7]), (0x1eb8, [0x1eb9]),
  (0x1eba, [0x1ebb]), (0x1ebc, [0x1ebd]), (0x1ebe, [0x1ebf]), (0x1ec0, [0x1ec1]),
  (0x1ec2, [0x1ec3]), (0x1ec4, [0x1ec5]), (0x1ec6, [0x1ec7]), (0x1ec8, [0x1ec9]),
  (0x1eca, [0x1ecb]), (0x1ecc, [0x1ecd]), (0x1ece, [0x1ecf]), (0x1ed0, [0x1ed1]),
  (0x1ed2, [0x1ed3]), (0x1ed4, [0x1ed5]), (0x1ed6, [0x1ed7]), (0x1ed8, [0x1ed9]),
  (0x1eda, [0x1edb]), (0x1edc, [0x1edd]), (0x1ede, [0x1edf]), (0x1ee0, [0x1ee1]),
  (0x1ee2, [0x1ee3]), (0x1ee4, [0x1ee5]), (0x1ee6, [0x1ee7]), (0x1ee8, [0x1ee9]),
  (0x1eea, [0x1eeb]), (0x1eec, [0x1eed]), (0x1eee, [0x1eef]), (0x1ef0, [0x1ef1]),
  (0x1ef2, [0x1ef3]), (0x1ef4, [0x1ef5]), (0x1ef6, [0x1ef7]), (0x1ef8, [0x1ef9]),
  (0x1efa, [0x1efb]), (0x1efc, [0x1efd]), (0x1efe, [0x1eff]), (0x1f08, [0x1f00]),
  (0x1f09, [0x1f01]), (0x1f0a, [0x1f02]), (0x1f0b, [0x1f03]), (0x1f0c, [0x1f04]),
  (0x1f0d, [0x1f05]), (0x1f0e, [0x1f06]), (0x1f0f, [0x1f07]), (0x1f18, [0x1f10]),
  (0x1f19, [0x1f11]), (0x1f1a, [0x1f12]), (0x1f1b, [0x1f13]), (0x1f1c, [0x1f14]),
  (0x1f1d, [0x1f15]), (0x1f28, [0x1f20]), (0x1f29, [0x1f21]), (0x1f2a, [0x1f22]),
  (0x1f2b, [0x1f23]), (0x1f2c, [0x1f24]), (0x1f2d, [0x1f25]), (0x1f2e, [0x1f26]),
  (0x1f2f, [0x1f27]), (0x1f38, [0x1f30]), (0x1f39, [0x1f31]), (0x1f3a, [0x1f32]),
  (0x1f3b, [0x1f33]), (0x1f3c, [0x1f34]), (0x1f3d, [0x1f35]), (0x1f3e, [0x1f36]),
  (0x1f3f, [0x1f37]), (0x1f48, [0x1f40]), (0x1f49, [0x1f41]), (0x1f4a, [0x1f42]),
  (0x1f4b, [0x1f43]), (0x1f4c, [0x1f44]), (0x1f4d, [0x1f45]), (0x1f59, [0x1f51]),
  (0x1f5b, [0x1f53]), (0x1f5d, [0x1f55]), (0x1f5f, [0x1f57]), (0x1f68, [0x1f60]),
  (0x1f69, [0x1f61]), (0x1f6a, [0x1f62]), (0x1f6b, [0x1f63]), (0x1f6c, [0x1f64]),
  (0x1f6d, [0x1f65]), (0x1f6e, [0x1f66]), (0x1f6f, [0x1f67]), (0x1f88, [0x1f80]),
  (0x1f89, [0x1f81]), (0x1f8a, [0x1f82]), (0x1f8b, [0x1f83]), (0x1f8c, [0x1f84]),
  (0x1f8d, [0x1f85]), (0x1f8e, [0x1f86]), (0x1f8f, [0x1f87]), (0x1f98, [0x1f90]),
  (0x1f99, [0x1f91]), (0x1f9a, [0x1f92]), (0x1f9b, [0x1f93]), (0x1f9c, [0x1f94]),
  (0x1f9d, [0x1f95]), (0x1f9e, [0x1f96]), (0x1f9f, [0x1f97]), (0x1fa8, [0x1fa0]),
  (0x1fa9, [0x1fa1]), (0x1faa, [0x1fa2]), (0x1fab, [0x1fa3]), (0x1fac, [0x1fa4]),
  (0x1fad, [0x1fa5]), (0x1fae, [0x1fa6]), (0x1faf, [0x1fa7]), (0x1fb8, [0x1fb0]),
  (0x1fb9, [0x1fb1]), (0x1fba, [0x1f70]), (0x1fbb, [0x1f71]), (0x1fbc, [0x1fb3]),
  (0x1fc8, [0x1f72]), (0x1fc9, [0x1f73]), (0x1fca, [0x1f74]), (0x1fcb, [0x1f75]),
  (0x1fcc, [0x1fc3]), (0x1fd8, [0x1fd0]), (0x1fd9, [0x1fd1]), (0x1fda, [0x1f76]),
  (0x1fdb, [0x1f77]), (0x1fe8, [0x1fe0]), (0x1fe9, [0x1fe1]), (0x1fea, [0x1f7a]),
  (0x1feb, [0x1f7b]), (0x1fec, [0x1fe5]), (0x1ff8, [0x1f78]), (0x1ff9, [0x1f79]),
  (0x1ffa, [0x1f7c]), (0x1ffb, [0x1f7d]), (0x1ffc, [0x1ff3]), (0x2126, [0x3c9]),
  (0x212a, [0x6b]), (0x212b, [0xe5]), (0x2132, [0x214e]), (0x2160, [0x2170]),
  (0x2161, [0x2171]), (0x2162, [0x2172]), (0x2163, [0x2173]), (0x2164, [0x2174]),
  (0x2165, [0x2175]), (0x2166, [0x2176]), (0x2167, [0x2177]), (0x2168, [0x2178]),
  (0x2169, [0x2179]), (0x216a, [0x217a]), (0x216b, [0x217b]), (0x216c, [0x217c]),
  (0x216d, [0x217d]), (0x216e, [0x217e]), (0x216f, [0x217f]), (0x2183, [0x2184]),
  (0x24b6, [0x24d0]), (0x24b7, [0x24d1]), (0x24b8, [0x24d2]), (0x24b9, [0x24d3]),
  (0x24ba, [0x24d4]), (0x24bb, [0x24d5]), (0x24bc, [0x24d6]), (0x24bd, [0x24d7]),
  (0x24be, [0x24d8]), (0x24bf, [0x24d9]), (0x24c0, [0x24da]), (0x24c1, [0x24db]),
  (0x24c2, [0x24dc]), (0x24c3, [0x24dd]), (0x24c4, [0x24de]), (0x24c5, [0x24df]),
  (0x24c6, [0x24e0]), (0x24c7, [0x24e1]), (0x24c8, [0x24e2]), (0x24c9, [0x24e3]),
  (0x24ca, [0x24e4]), (0x24cb, [0x24e5]), (0x24cc, [0x24e6]), (0x24cd, [0x24e7]),
  (0x24ce, [0x24e8]), (0x24cf, [0x24e9]), (0x2c00, [0x2c30]), (0x2c01, [0x2c31]),
  (0x2c02, [0x2c32]), (0x2c03, [0x2c33]), (0x2c04, [0x2c34]), (0x2c05, [0x2c35]),
  (0x2c06, [0x2c36]), (0x2c07, [0x2c37]), (0x2c08, [0x2c38]), (0x2c09, [0x2c39]),
  (0x2c0a, [0x2c3a]), (0x2c0b, [0x2c3b]), (0x2c0c, [0x2c3c]), (0x2c0d, [0x2c3d]),
  (0x2c0e, [0x2c3e]), (0x2c0f, [0x2c3f]), (0x2c10, [0x2c40]), (0x2c11, [0x2c41])
]

set_option maxHeartbeats 1000000 in
/-- Slice 4 of the lowercase mapping table. -/
def lowerTable4 : List (Nat × List Nat) := [
  (0x2c12, [0x2c42]), (0x2c13, [0x2c43]), (0x2c14, [0x2c44]), (0x2c15, [0x2c45]),
  (0x2c16, [0x2c46]), (0x2c17, [0x2c47]), (0x2c18, [0x2c48]), (0x2c19, [0x2c49]),
  (0x2c1a, [0x2c4a]), (0x2c1b, [0x2c4b]), (0x2c1c, [0x2c4c]), (0x2c1d, [0x2c4d]),
  (0x2c1e, [0x2c4e]), (0x2c1f, [0x2c4f]), (0x2c20, [0x2c50]), (0x2c21, [0x2c51]),
  (0x2c22, [0x2c52]), (0x2c23, [0x2c53]), (0x2c24, [0x2c54]), (0x2c25, [0x2c55]),
  (0x2c26, [0x2c56]), (0x2c27, [0x2c57]), (0x2c28, [0x2c58]), (0x2c29, [0x2c59]),
  (0x2c2a, [0x2c5a]), (0x2c2b, [0x2c5b]), (0x2c2c, [0x2c5c]), (0x2c2d, [0x2c5d]),
  (0x2c2e, [0x2c5e]), (0x2c2f, [0x2c5f]), (0x2c60, [0x2c61]), (0x2c62, [0x26b]),
  (0x2c63, [0x1d7d]), (0x2c64, [0x27d]), (0x2c67, [0x2c68]), (0x2c69, [0x2c6a]),
  (0x2c6b, [0x2c6c]), (0x2c6d, [0x251]), (0x2c6e, [0x271]), (0x2c6f, [0x250]),
  (0x2c70, [0x252]), (0x2c72, [0x2c73]), (0x2c75, [0x2c76]), (0x2c7e, [0x23f]),
  (0x2c7f, [0x240]), (0x2c80, [0x2c81]), (0x2c82, [0x2c83]), (0x2c84, [0x2c85]),
  (0x2c86, [0x2c87]), (0x2c88, [0x2c89]), (0x2c8a, [0x2c8b]), (0x2c8c, [0x2c8d]),
  (0x2c8e, [0x2c8f]), (0x2c90, [0x2c91]), (0x2c92, [0x2c93]), (0x2c94, [0x2c95]),
  (0x2c96, [0x2c97]), (0x2c98, [0x2c99]), (0x2c9a, [0x2c9b]), (0x2c9c, [0x2c9d]),
  (0x2c9e, [0x2c9f]), (0x2ca0, [0x2ca1]), (0x2ca2, [0x2ca3]), (0x2ca4, [0x2ca5]),
  (0x2ca6, [0x2ca7]), (0x2ca8, [0x2ca9]), (0x2caa, [0x2cab]), (0x2cac, [0x2cad]),
  (0x2cae, [0x2caf]), (0x2cb0, [0x2cb1]), (0x2cb2, [0x2cb3]), (0x2cb4, [0x2cb5]),
  (0x2cb6, [0x2cb7]), (0x2cb8, [0x2cb9]), (0x2cba, [0x2cbb]), (0x2cbc, [0x2cbd]),
  (0x2cbe, [0x2cbf]), (0x2cc0, [0x2cc1]), (0x2cc2, [0x2cc3]), (0x2cc4, [0x2cc5]),
  (0x2cc6, [0x2cc7]), (0x2cc8, [0x2cc9]), (0x2cca, [0x2ccb]), (0x2ccc, [0x2ccd]),
  (0x2cce, [0x2ccf]), (0x2cd0, [0x2cd1]), (0x2cd2, [0x2cd3]), (0x2cd4, [0x2cd5]),
  (0x2cd6, [0x2cd7]), (0x2cd8, [0x2cd9]), (0x2cda, [0x2cdb]), (0x2cdc, [0x2cdd]),
  (0x2cde, [0x2cdf]), (0x2ce0, [0x2ce1]), (0x2ce2, [0x2ce3]), (0x2ceb, [0x2cec]),
  (0x2ced, [0x2cee]), (0x2cf2, [0x2cf3]), (0xa640, [0xa641]), (0xa642, [0xa643]),
  (0xa644, [0xa645]), (0xa646, [0xa647]), (0xa648, [0xa649]), (0xa64a, [0xa64b]),
  (0xa64c, [0xa64d]), (0xa64e, [0xa64f]), (0xa650, [0xa651]), (0xa652, [0xa653]),
  (0xa654, [0xa655]), (0xa656, [0xa657]), (0xa658, [0xa659]), (0xa65a, [0xa65b]),
  (0xa65c, [0xa65d]), (0xa65e, [0xa65f]), (0xa660, [0xa661]), (0xa662, [0xa663]),
  (0xa664, [0xa665]), (0xa666, [0xa667]), (0xa668, [0xa669]), (0xa66a, [0xa66b]),
  (0xa66c, [0xa66d]), (0xa680, [0xa681]), (0xa682, [0xa683]), (0xa684, [0xa685]),
  (0xa686, [0xa687]), (0xa688, [0xa689]), (0xa68a, [0xa68b]), (0xa68c, [0xa68d]),
  (0xa68e, [0xa68f]), (0xa690, [0xa691]), (0xa692, [0xa693]), (0xa694, [0xa695]),
  (0xa696, [0xa697]), (0xa698, [0xa699]), (0xa69a, [0xa69b]), (0xa722, [0xa723]),
  (0xa724, [0xa725]), (0xa726, [0xa727]), (0xa728, [0xa729]), (0xa72a, [0xa72b]),
  (0xa72c, [0xa72d]), (0xa72e, [0xa72f]), (0xa732, [0xa733]), (0xa734, [0xa735]),
  (0xa736, [0xa737]), (0xa738, [0xa739]), (0xa73a, [0xa73b]), (0xa73c, [0xa73d]),
  (0xa73e, [0xa73f]), (0xa740, [0xa741]), (0xa742, [0xa743]), (0xa744, [0xa745]),
  (0xa746, [0xa747]), (0xa748, [0xa749]), (0xa74a, [0xa74b]), (0xa74c, [0xa74d]),
  (0xa74e, [0xa74f]), (0xa750, [0xa751]), (0xa752, [0xa753]), (0xa754, [0xa755]),
  (0xa756, [0xa757]), (0xa758, [0xa759]), (0xa75a, [0xa75b]), (0xa75c, [0xa75d]),
  (0xa75e, [0xa75f]), (0xa760, [0xa761]), (0xa762, [0xa763]), (0xa764, [0xa765]),
  (0xa766, [0xa767]), (0xa768, [0xa769]), (0xa76a, [0xa76b]), (0xa76c, [0xa76d]),
  (0xa76e, [0xa76f]), (0xa779, [0xa77a]), (0xa77b, [0xa77c]), (0xa77d, [0x1d79]),
  (0xa77e, [0xa77f]), (0xa780, [0xa781]), (0xa782, [0xa783]), (0xa784, [0xa785]),
  (0xa786, [0xa787]), (0xa78b, [0xa78c]), (0xa78d, [0x265]), (0xa790, [0xa791]),
  (0xa792, [0xa793]), (0xa796, [0xa797]), (0xa798, [0xa799]), (0xa79a, [0xa79b]),
  (0xa79c, [0xa79d]), (0xa79e, [0xa79f]), (0xa7a0, [0xa7a1]), (0xa7a2, [0xa7a3]),
  (0xa7a4, [0xa7a5]), (0xa7a6, [0xa7a7]), (0xa7a8, [0xa7a9]), (0xa7aa, [0x266]),
  (0xa7ab, [0x25c]), (0xa7ac, [0x261]), (0xa7ad, [0x26c]), (0xa7ae, [0x26a]),
  (0xa7b0, [0x29e]), (0xa7b1, [0x287]), (0xa7b2, [0x29d]), (0xa7b3, [0xab53]),
  (0xa7b4, [0xa7b5]), (0xa7b6, [0xa7b7]), (0xa7b8, [0xa7b9]), (0xa7ba, [0xa7bb]),
  (0xa7bc, [0xa7bd]), (0xa7be, [0xa7bf]), (0xa7c0, [0xa7c1]), (0xa7c2, [0xa7c3]),
  (0xa7c4, [0xa794]), (0xa7c5, [0x282]), (0xa7c6, [0x1d8e]), (0xa7c7, [0xa7c8]),
  (0xa7c9, [0xa7ca]), (0xa7d0, [0xa7d1]), (0xa7d6, [0xa7d7]), (0xa7d8, [0xa7d9]),
  (0xa7f5, [0xa7f6]), (0xff21, [0xff41]), (0xff22, [0xff42]), (0xff23, [0xff43]),
  (0xff24, [0xff44]), (0xff25, [0xff45]), (0xff26, [0xff46]), (0xff27, [0xff47]),
  (0xff28, [0xff48]), (0xff29, [0xff49]), (0xff2a, [0xff4a]), (0xff2b, [0xff4b]),
  (0xff2c, [0xff4c]), (0xff2d, [0xff4d]), (0xff2e, [0xff4e]), (0xff2f, [0xff4f]),
  (0xff30, [0xff50]), (0xff31, [0xff51]), (0xff32, [0xff52]), (0xff33, [0xff53]),
  (0xff34, [0xff54]), (0xff35, [0xff55]), (0xff36, [0xff56]), (0xff37, [0xff57]),
  (0xff38, [0xff58]), (0xff39, [0xff59]), (0xff3a, [0xff5a]), (0x10400, [0x10428]),
  (0x10401, [0x10429]), (0x10402, [0x1042a]), (0x10403, [0x1042b]), (0x10404, [0x1042c]),
  (0x10405, [0x1042d]), (0x10406, [0x1042e]), (0x10407, [0x1042f]), (0x10408, [0x10430]),
  (0x10409, [0x10431]), (0x1040a, [0x10432]), (0x1040b, [0x10433]), (0x1040c, [0x10434]),
  (0x1040d, [0x10435]), (0x1040e, [0x10436]), (0x1040f, [0x10437]), (0x10410, [0x10438]),
  (0x10411, [0x10439]), (0x10412, [0x1043a]), (0x10413, [0x1043b]), (0x10414, [0x1043c]),
  (0x10415, [0x1043d]), (0x10416, [0x1043e]), (0x10417, [0x1043f]), (0x10418, [0x10440]),
  (0x10419, [0x10441]), (0x1041a, [0x10442]), (0x1041b, [0x10443]), (0x1041c, [0x10444]),
  (0x1041d, [0x10445]), (0x1041e, [0x10446]), (0x1041f, [0x10447]), (0x10420, [0x10448]),
  (0x10421, [0x10449]), (0x10422, [0x1044a]), (0x10423, [0x1044b]), (0x10424, [0x1044c]),
  (0x10425, [0x1044d]), (0x10426, [0x1044e]), (0x10427, [0x1044f]), (0x104b0, [0x104d8]),
  (0x104b1, [0x104d9]), (0x104b2, [0x104da]), (0x104b3, [0x104db]), (0x104b4, [0x104dc]),
  (0x104b5, [0x104dd]), (0x104b6, [0x104de]), (0x104b7, [0x104df]), (0x104b8, [0x104e0]),
  (0x104b9, [0x104e1]), (0x104ba, [0x104e2]), (0x104bb, [0x104e3]), (0x104bc, [0x104e4])
]

set_option maxHeartbeats 1000000 in
/-- Slice 5 of the lowercase mapping table. -/
def lowerTable5 : List (Nat × List Nat) := [
  (0x104bd, [0x104e5]), (0x104be, [0x104e6]), (0x104bf, [0x104e7]), (0x104c0, [0x104e8]),
  (0x104c1, [0x104e9]), (0x104c2, [0x104ea]), (0x104c3, [0x104eb]), (0x104c4, [0x104ec]),
  (0x104c5, [0x104ed]), (0x104c6, [0x104ee]), (0x104c7, [0x104ef]), (0x104c8, [0x104f0]),
  (0x104c9, [0x104f1]), (0x104ca, [0x104f2]), (0x104cb, [0x104f3]), (0x104cc, [0x104f4]),
  (0x104cd, [0x104f5]), (0x104ce, [0x104f6]), (0x104cf, [0x104f7]), (0x104d0, [0x104f8]),
  (0x104d1, [0x104f9]), (0x104d2, [0x104fa]), (0x104d3, [0x104fb]), (0x10570, [0x10597]),
  (0x10571, [0x10598]), (0x10572, [0x10599]), (0x10573, [0x1059a]), (0x10574, [0x1059b]),
  (0x10575, [0x1059c]), (0x10576, [0x1059d]), (0x10577, [0x1059e]), (0x10578, [0x1059f]),
  (0x10579, [0x105a0]), (0x1057a, [0x105a1]), (0x1057c, [0x105a3]), (0x1057d, [0x105a4]),
  (0x1057e, [0x105a5]), (0x1057f, [0x105a6]), (0x10580, [0x105a7]), (0x10581, [0x105a8]),
  (0x10582, [0x105a9]), (0x10583, [0x105aa]), (0x10584, [0x105ab]), (0x10585, [0x105ac]),
  (0x10586, [0x105ad]), (0x10587, [0x105ae]), (0x10588, [0x105af]), (0x10589, [0x105b0]),
  (0x1058a, [0x105b1]), (0x1058c, [0x105b3]), (0x1058d, [0x105b4]), (0x1058e, [0x105b5]),
  (0x1058f, [0x105b6]), (0x10590, [0x105b7]), (0x10591, [0x105b8]), (0x10592, [0x105b9]),
  (0x10594, [0x105bb]), (0x10595, [0x105bc]), (0x10c80, [0x10cc0]), (0x10c81, [0x10cc1]),
  (0x10c82, [0x10cc2]), (0x10c83, [0x10cc3]), (0x10c84, [0x10cc4]), (0x10c85, [0x10cc5]),
  (0x10c86, [0x10cc6]), (0x10c87, [0x10cc7]), (0x10c88, [0x10cc8]), (0x10c89, [0x10cc9]),
  (0x10c8a, [0x10cca]), (0x10c8b, [0x10ccb]), (0x10c8c, [0x10ccc]), (0x10c8d, [0x10ccd]),
  (0x10c8e, [0x10cce]), (0x10c8f, [0x10ccf]), (0x10c90, [0x10cd0]), (0x10c91, [0x10cd1]),
  (0x10c92, [0x10cd2]), (0x10c93, [0x10cd3]), (0x10c94, [0x10cd4]), (0x10c95, [0x10cd5]),
  (0x10c96, [0x10cd6]), (0x10c97, [0x10cd7]), (0x10c98, [0x10cd8]), (0x10c99, [0x10cd9]),
  (0x10c9a, [0x10cda]), (0x10c9b, [0x10cdb]), (0x10c9c, [0x10cdc]), (0x10c9d, [0x10cdd]),
  (0x10c9e, [0x10cde]), (0x10c9f, [0x10cdf]), (0x10ca0, [0x10ce0]), (0x10ca1, [0x10ce1]),
  (0x10ca2, [0x10ce2]), (0x10ca3, [0x10ce3]), (0x10ca4, [0x10ce4]), (0x10ca5, [0x10ce5]),
  (0x10ca6, [0x10ce6]), (0x10ca7, [0x10ce7]), (0x10ca8, [0x10ce8]), (0x10ca9, [0x10ce9]),
  (0x10caa, [0x10cea]), (0x10cab, [0x10ceb]), (0x10cac, [0x10cec]), (0x10cad, [0x10ced]),
  (0x10cae, [0x10cee]), (0x10caf, [0x10cef]), (0x10cb0, [0x10cf0]), (0x10cb1, [0x10cf1]),
  (0x10cb2, [0x10cf2]), (0x118a0, [0x118c0]), (0x118a1, [0x118c1]), (0x118a2, [0x118c2]),
  (0x118a3, [0x118c3]), (0x118a4, [0x118c4]), (0x118a5, [0x118c5]), (0x118a6, [0x118c6]),
  (0x118a7, [0x118c7]), (0x118a8, [0x118c8]), (0x118a9, [0x118c9]), (0x118aa, [0x118ca]),
  (0x118ab, [0x118cb]), (0x118ac, [0x118cc]), (0x118ad, [0x118cd]), (0x118ae, [0x118ce]),
  (0x118af, [0x118cf]), (0x118b0, [0x118d0]), (0x118b1, [0x118d1]), (0x118b2, [0x118d2]),
  (0x118b3, [0x118d3]), (0x118b4, [0x118d4]), (0x118b5, [0x118d5]), (0x118b6, [0x118d6]),
  (0x118b7, [0x118d7]), (0x118b8, [0x118d8]), (0x118b9, [0x118d9]), (0x118ba, [0x118da]),
  (0x118bb, [0x118db]), (0x118bc, [0x118dc]), (0x118bd, [0x118dd]), (0x118be, [0x118de]),
  (0x118bf, [0x118df]), (0x16e40, [0x16e60]), (0x16e41, [0x16e61]), (0x16e42, [0x16e62]),
  (0x16e43, [0x16e63]), (0x16e44, [0x16e64]), (0x16e45, [0x16e65]), (0x16e46, [0x16e66]),
  (0x16e47, [0x16e67]), (0x16e48, [0x16e68]), (0x16e49, [0x16e69]), (0x16e4a, [0x16e6a]),
  (0x16e4b, [0x16e6b]), (0x16e4c, [0x16e6c]), (0x16e4d, [0x16e6d]), (0x16e4e, [0x16e6e]),
  (0x16e4f, [0x16e6f]), (0x16e50, [0x16e70]), (0x16e51, [0x16e71]), (0x16e52, [0x16e72]),
  (0x16e53, [0x16e73]), (0x16e54, [0x16e74]), (0x16e55, [0x16e75]), (0x16e56, [0x16e76]),
  (0x16e57, [0x16e77]), (0x16e58, [0x16e78]), (0x16e59, [0x16e79]), (0x16e5a, [0x16e7a]),
  (0x16e5b, [0x16e7b]), (0x16e5c, [0x16e7c]), (0x16e5d, [0x16e7d]), (0x16e5e, [0x16e7e]),
  (0x16e5f, [0x16e7f]), (0x1e900, [0x1e922]), (0x1e901, [0x1e923]), (0x1e902, [0x1e924]),
  (0x1e903, [0x1e925]), (0x1e904, [0x1e926]), (0x1e905, [0x1e927]), (0x1e906, [0x1e928]),
  (0x1e907, [0x1e929]), (0x1e908, [0x1e92a]), (0x1e909, [0x1e92b]), (0x1e90a, [0x1e92c]),
  (0x1e90b, [0x1e92d]), (0x1e90c, [0x1e92e]), (0x1e90d, [0x1e92f]), (0x1e90e, [0x1e930]),
  (0x1e90f, [0x1e931]), (0x1e910, [0x1e932]), (0x1e911, [0x1e933]), (0x1e912, [0x1e934]),
  (0x1e913, [0x1e935]), (0x1e914, [0x1e936]), (0x1e915, [0x1e937]), (0x1e916, [0x1e938]),
  (0x1e917, [0x1e939]), (0x1e918, [0x1e93a]), (0x1e919, [0x1e93b]), (0x1e91a, [0x1e93c]),
  (0x1e91b, [0x1e93d]), (0x1e91c, [0x1e93e]), (0x1e91d, [0x1e93f]), (0x1e91e, [0x1e940]),
  (0x1e91f, [0x1e941]), (0x1e920, [0x1e942]), (0x1e921, [0x1e943])
]

/-- Per-code-point lowercase mappings of Unicode 14.0.0 outside ASCII:
every code point whose default full lowercase mapping differs from itself,
paired with that mapping (one entry, U+0130, maps to two code points).
Generated from the Unicode character database and split into slices to keep
elaboration shallow. -/
def lowerTable : List (Nat × List Nat) :=
  lowerTable1 ++ lowerTable2 ++ lowerTable3 ++ lowerTable4 ++ lowerTable5

/-- Code-point ranges of the Cased property (Unicode 14.0.0): the
lowercase and uppercase characters together with titlecase letters, used by
the Final_Sigma context of toLowerCase. -/
def casedRanges : List (Nat × Nat) := [
  (0x41, 0x5a), (0x61, 0x7a), (0xaa, 0xaa), (0xb5, 0xb5), (0xba, 0xba), (0xc0, 0xd6),
  (0xd8, 0xf6), (0xf8, 0x1ba), (0x1bc, 0x1bf), (0x1c4, 0x293), (0x295, 0x2b8), (0x2c0, 0x2c1),
  (0x2e0, 0x2e4), (0x345, 0x345), (0x370, 0x373), (0x376, 0x377), (0x37a, 0x37d), (0x37f, 0x37f),
  (0x386, 0x386), (0x388, 0x38a), (0x38c, 0x38c), (0x38e, 0x3a1), (0x3a3, 0x3f5), (0x3f7, 0x481),
  (0x48a, 0x52f), (0x531, 0x556), (0x560, 0x588), (0x10a0, 0x10c5), (0x10c7, 0x10c7), (0x10cd, 0x10cd),
  (0x10d0, 0x10fa), (0x10fd, 0x10ff), (0x13a0, 0x13f5), (0x13f8, 0x13fd), (0x1c80, 0x1c88), (0x1c90, 0x1cba),
  (0x1cbd, 0x1cbf), (0x1d00, 0x1dbf), (0x1e00, 0x1f15), (0x1f18, 0x1f1d), (0x1f20, 0x1f45), (0x1f48, 0x1f4d),
  (0x1f50, 0x1f57), (0x1f59, 0x1f59), (0x1f5b, 0x1f5b), (0x1f5d, 0x1f5d), (0x1f5f, 0x1f7d), (0x1f80, 0x1fb4),
  (0x1fb6, 0x1fbc), (0x1fbe, 0x1fbe), (0x1fc2, 0x1fc4), (0x1fc6, 0x1fcc), (0x1fd0, 0x1fd3), (0x1fd6, 0x1fdb),
  (0x1fe0, 0x1fec), (0x1ff2, 0x1ff4), (0x1ff6, 0x1ffc), (0x2071, 0x2071), (0x207f, 0x207f), (0x2090, 0x209c),
  (0x2102, 0x2102), (0x2107, 0x2107), (0x210a, 0x2113), (0x2115, 0x2115), (0x2119, 0x211d), (0x2124, 0x2124),
  (0x2126, 0x2126), (0x2128, 0x2128), (0x212a, 0x212d), (0x212f, 0x2134), (0x2139, 0x2139), (0x213c, 0x213f),
  (0x2145, 0x2149), (0x214e, 0x214e), (0x2160, 0x217f), (0x2183, 0x2184), (0x24b6, 0x24e9), (0x2c00, 0x2ce4),
  (0x2ceb, 0x2cee), (0x2cf2, 0x2cf3), (0x2d00, 0x2d25), (0x2d27, 0x2d27), (0x2d2d, 0x2d2d), (0xa640, 0xa66d),
  (0xa680, 0xa69d), (0xa722, 0xa787), (0xa78b, 0xa78e), (0xa790, 0xa7ca), (0xa7d0, 0xa7d1), (0xa7d3, 0xa7d3),
  (0xa7d5, 0xa7d9), (0xa7f5, 0xa7f6), (0xa7f8, 0xa7fa), (0xab30, 0xab5a), (0xab5c, 0xab68), (0xab70, 0xabbf),
  (0xfb00, 0xfb06), (0xfb13, 0xfb17), (0xff21, 0xff3a), (0xff41, 0xff5a), (0x10400, 0x1044f), (0x104b0, 0x104d3),
  (0x104d8, 0x104fb), (0x10570, 0x1057a), (0x1057c, 0x1058a), (0x1058c, 0x10592), (0x10594, 0x10595), (0x10597, 0x105a1),
  (0x105a3, 0x105b1), (0x105b3, 0x105b9), (0x105bb, 0x105bc), (0x10780, 0x10780), (0x10783, 0x10785), (0x10787, 0x107b0),
  (0x107b2, 0x107ba), (0x10c80, 0x10cb2), (0x10cc0, 0x10cf2), (0x118a0, 0x118df), (0x16e40, 0x16e7f), (0x1d400, 0x1d454),
  (0x1d456, 0x1d49c), (0x1d49e, 0x1d49f), (0x1d4a2, 0x1d4a2), (0x1d4a5, 0x1d4a6), (0x1d4a9, 0x1d4ac), (0x1d4ae, 0x1d4b9),
  (0x1d4bb, 0x1d4bb), (0x1d4bd, 0x1d4c3), (0x1d4c5, 0x1d505), (0x1d507, 0x1d50a), (0x1d50d, 0x1d514), (0x1d516, 0x1d51c),
  (0x1d51e, 0x1d539), (0x1d53b, 0x1d53e), (0x1d540, 0x1d544), (0x1d546, 0x1d546), (0x1d54a, 0x1d550), (0x1d552, 0x1d6a5),
  (0x1d6a8, 0x1d6c0), (0x1d6c2, 0x1d6da), (0x1d6dc, 0x1d6fa), (0x1d6fc, 0x1d714), (0x1d716, 0x1d734), (0x1d736, 0x1d74e),
  (0x1d750, 0x1d76e), (0x1d770, 0x1d788), (0x1d78a, 0x1d7a8), (0x1d7aa, 0x1d7c2), (0x1d7c4, 0x1d7cb), (0x1df00, 0x1df09),
  (0x1df0b, 0x1df1e), (0x1e900, 0x1e943), (0x1f130, 0x1f149), (0x1f150, 0x1f169), (0x1f170, 0x1f189)
]

/-- Code-point ranges of the Case_Ignorable property (Unicode 14.0.0):
the marks, format controls, modifier letters and symbols, and the word-break
MidLetter, MidNumLet and Single_Quote punctuation. -/
def caseIgnorableRanges : List (Nat × Nat) := [
  (0x27, 0x27), (0x2e, 0x2e), (0x3a, 0x3a), (0x5e, 0x5e), (0x60, 0x60), (0xa8, 0xa8),
  (0xad, 0xad), (0xaf, 0xaf), (0xb4, 0xb4), (0xb7, 0xb8), (0x2b0, 0x36f), (0x374, 0x375),
  (0x37a, 0x37a), (0x384, 0x385), (0x387, 0x387), (0x483, 0x489), (0x559, 0x559), (0x55f, 0x55f),
  (0x591, 0x5bd), (0x5bf, 0x5bf), (0x5c1, 0x5c2), (0x5c4, 0x5c5), (0x5c7, 0x5c7), (0x5f4, 0x5f4),
  (0x600, 0x605), (0x610, 0x61a), (0x61c, 0x61c), (0x640, 0x640), (0x64b, 0x65f), (0x670, 0x670),
  (0x6d6, 0x6dd), (0x6df, 0x6e8), (0x6ea, 0x6ed), (0x70f, 0x70f), (0x711, 0x711), (0x730, 0x74a),
  (0x7a6, 0x7b0), (0x7eb, 0x7f5), (0x7fa, 0x7fa), (0x7fd, 0x7fd), (0x816, 0x82d), (0x859, 0x85b),
  (0x888, 0x888), (0x890, 0x891), (0x898, 0x89f), (0x8c9, 0x902), (0x93a, 0x93a), (0x93c, 0x93c),
  (0x941, 0x948), (0x94d, 0x94d), (0x951, 0x957), (0x962, 0x963), (0x971, 0x971), (0x981, 0x981),
  (0x9bc, 0x9bc), (0x9c1, 0x9c4), (0x9cd, 0x9cd), (0x9e2, 0x9e3), (0x9fe, 0x9fe), (0xa01, 0xa02),
  (0xa3c, 0xa3c), (0xa41, 0xa42), (0xa47, 0xa48), (0xa4b, 0xa4d), (0xa51, 0xa51), (0xa70, 0xa71),
  (0xa75, 0xa75), (0xa81, 0xa82), (0xabc, 0xabc), (0xac1, 0xac5), (0xac7, 0xac8), (0xacd, 0xacd),
  (0xae2, 0xae3), (0xafa, 0xaff), (0xb01, 0xb01), (0xb3c, 0xb3c), (0xb3f, 0xb3f), (0xb41, 0xb44),
  (0xb4d, 0xb4d), (0xb55, 0xb56), (0xb62, 0xb63), (0xb82, 0xb82), (0xbc0, 0xbc0), (0xbcd, 0xbcd),
  (0xc00, 0xc00), (0xc04, 0xc04), (0xc3c, 0xc3c), (0xc3e, 0xc40), (0xc46, 0xc48), (0xc4a, 0xc4d),
  (0xc55, 0xc56), (0xc62, 0xc63), (0xc81, 0xc81), (0xcbc, 0xcbc), (0xcbf, 0xcbf), (0xcc6, 0xcc6),
  (0xccc, 0xccd), (0xce2, 0xce3), (0xd00, 0xd01), (0xd3b, 0xd3c), (0xd41, 0xd44), (0xd4d, 0xd4d),
  (0xd62, 0xd63), (0xd81, 0xd81), (0xdca, 0xdca), (0xdd2, 0xdd4), (0xdd6, 0xdd6), (0xe31, 0xe31),
  (0xe34, 0xe3a), (0xe46, 0xe4e), (0xeb1, 0xeb1), (0xeb4, 0xebc), (0xec6, 0xec6), (0xec8, 0xecd),
  (0xf18, 0xf19), (0xf35, 0xf35), (0xf37, 0xf37), (0xf39, 0xf39), (0xf71, 0xf7e), (0xf80, 0xf84),
  (0xf86, 0xf87), (0xf8d, 0xf97), (0xf99, 0xfbc), (0xfc6, 0xfc6), (0x102d, 0x1030), (0x1032, 0x1037),
  (0x1039, 0x103a), (0x103d, 0x103e), (0x1058, 0x1059), (0x105e, 0x1060), (0x1071, 0x1074), (0x1082, 0x1082),
  (0x1085, 0x1086), (0x108d, 0x108d), (0x109d, 0x109d), (0x10fc, 0x10fc), (0x135d, 0x135f), (0x1712, 0x1714),
  (0x1732, 0x1733), (0x1752, 0x1753), (0x1772, 0x1773), (0x17b4, 0x17b5), (0x17b7, 0x17bd), (0x17c6, 0x17c6),
  (0x17c9, 0x17d3), (0x17d7, 0x17d7), (0x17dd, 0x17dd), (0x180b, 0x180f), (0x1843, 0x1843), (0x1885, 0x1886),
  (0x18a9, 0x18a9), (0x1920, 0x1922), (0x1927, 0x1928), (0x1932, 0x1932), (0x1939, 0x193b), (0x1a17, 0x1a18),
  (0x1a1b, 0x1a1b), (0x1a56, 0x1a56), (0x1a58, 0x1a5e), (0x1a60, 0x1a60), (0x1a62, 0x1a62), (0x1a65, 0x1a6c),
  (0x1a73, 0x1a7c), (0x1a7f, 0x1a7f), (0x1aa7, 0x1aa7), (0x1ab0, 0x1ace), (0x1b00, 0x1b03), (0x1b34, 0x1b34),
  (0x1b36, 0x1b3a), (0x1b3c, 0x1b3c), (0x1b42, 0x1b42), (0x1b6b, 0x1b73), (0x1b80, 0x1b81), (0x1ba2, 0x1ba5),
  (0x1ba8, 0x1ba9), (0x1bab, 0x1bad), (0x1be6, 0x1be6), (0x1be8, 0x1be9), (0x1bed, 0x1bed), (0x1bef, 0x1bf1),
  (0x1c2c, 0x1c33), (0x1c36, 0x1c37), (0x1c78, 0x1c7d), (0x1cd0, 0x1cd2), (0x1cd4, 0x1ce0), (0x1ce2, 0x1ce8),
  (0x1ced, 0x1ced), (0x1cf4, 0x1cf4), (0x1cf8, 0x1cf9), (0x1d2c, 0x1d6a), (0x1d78, 0x1d78), (0x1d9b, 0x1dff),
  (0x1fbd, 0x1fbd), (0x1fbf, 0x1fc1), (0x1fcd, 0x1fcf), (0x1fdd, 0x1fdf), (0x1fed, 0x1fef), (0x1ffd, 0x1ffe),
  (0x200b, 0x200f), (0x2018, 0x2019), (0x2024, 0x2024), (0x2027, 0x2027), (0x202a, 0x202e), (0x2060, 0x2064),
  (0x2066, 0x206f), (0x2071, 0x2071), (0x207f, 0x207f), (0x2090, 0x209c), (0x20d0, 0x20f0), (0x2c7c, 0x2c7d),
  (0x2cef, 0x2cf1), (0x2d6f, 0x2d6f), (0x2d7f, 0x2d7f), (0x2de0, 0x2dff), (0x2e2f, 0x2e2f), (0x3005, 0x3005),
  (0x302a, 0x302d), (0x3031, 0x3035), (0x303b, 0x303b), (0x3099, 0x309e), (0x30fc, 0x30fe), (0xa015, 0xa015),
  (0xa4f8, 0xa4fd), (0xa60c, 0xa60c), (0xa66f, 0xa672), (0xa674, 0xa67d), (0xa67f, 0xa67f), (0xa69c, 0xa69f),
  (0xa6f0, 0xa6f1), (0xa700, 0xa721), (0xa770, 0xa770), (0xa788, 0xa78a), (0xa7f2, 0xa7f4), (0xa7f8, 0xa7f9),
  (0xa802, 0xa802), (0xa806, 0xa806), (0xa80b, 0xa80b), (0xa825, 0xa826), (0xa82c, 0xa82c), (0xa8c4, 0xa8c5),
  (0xa8e0, 0xa8f1), (0xa8ff, 0xa8ff), (0xa926, 0xa92d), (0xa947, 0xa951), (0xa980, 0xa982), (0xa9b3, 0xa9b3),
  (0xa9b6, 0xa9b9), (0xa9bc, 0xa9bd), (0xa9cf, 0xa9cf), (0xa9e5, 0xa9e6), (0xaa29, 0xaa2e), (0xaa31, 0xaa32),
  (0xaa35, 0xaa36), (0xaa43, 0xaa43), (0xaa4c, 0xaa4c), (0xaa70, 0xaa70), (0xaa7c, 0xaa7c), (0xaab0, 0xaab0),
  (0xaab2, 0xaab4), (0xaab7, 0xaab8), (0xaabe, 0xaabf), (0xaac1, 0xaac1), (0xaadd, 0xaadd), (0xaaec, 0xaaed),
  (0xaaf3, 0xaaf4), (0xaaf6, 0xaaf6), (0xab5b, 0xab5f), (0xab69, 0xab6b), (0xabe5, 0xabe5), (0xabe8, 0xabe8),
  (0xabed, 0xabed), (0xfb1e, 0xfb1e), (0xfbb2, 0xfbc2), (0xfe00, 0xfe0f), (0xfe13, 0xfe13), (0xfe20, 0xfe2f),
  (0xfe52, 0xfe52), (0xfe55, 0xfe55), (0xfeff, 0xfeff), (0xff07, 0xff07), (0xff0e, 0xff0e), (0xff1a, 0xff1a),
  (0xff3e, 0xff3e), (0xff40, 0xff40), (0xff70, 0xff70), (0xff9e, 0xff9f), (0xffe3, 0xffe3), (0xfff9, 0xfffb),
  (0x101fd, 0x101fd), (0x102e0, 0x102e0), (0x10376, 0x1037a), (0x10780, 0x10785), (0x10787, 0x107b0), (0x107b2, 0x107ba),
  (0x10a01, 0x10a03), (0x10a05, 0x10a06), (0x10a0c, 0x10a0f), (0x10a38, 0x10a3a), (0x10a3f, 0x10a3f), (0x10ae5, 0x10ae6),
  (0x10d24, 0x10d27), (0x10eab, 0x10eac), (0x10f46, 0x10f50), (0x10f82, 0x10f85), (0x11001, 0x11001), (0x11038, 0x11046),
  (0x11070, 0x11070), (0x11073, 0x11074), (0x1107f, 0x11081), (0x110b3, 0x110b6), (0x110b9, 0x110ba), (0x110bd, 0x110bd),
  (0x110c2, 0x110c2), (0x110cd, 0x110cd), (0x11100, 0x11102), (0x11127, 0x1112b), (0x1112d, 0x11134), (0x11173, 0x11173),
  (0x11180, 0x11181), (0x111b6, 0x111be), (0x111c9, 0x111cc), (0x111cf, 0x111cf), (0x1122f, 0x11231), (0x11234, 0x11234),
  (0x11236, 0x11237), (0x1123e, 0x1123e), (0x112df, 0x112df), (0x112e3, 0x112ea), (0x11300, 0x11301), (0x1133b, 0x1133c),
  (0x11340, 0x11340), (0x11366, 0x1136c), (0x11370, 0x11374), (0x11438, 0x1143f), (0x11442, 0x11444), (0x11446, 0x11446),
  (0x1145e, 0x1145e), (0x114b3, 0x114b8), (0x114ba, 0x114ba), (0x114bf, 0x114c0), (0x114c2, 0x114c3), (0x115b2, 0x115b5),
  (0x115bc, 0x115bd), (0x115bf, 0x115c0), (0x115dc, 0x115dd), (0x11633, 0x1163a), (0x1163d, 0x1163d), (0x1163f, 0x11640),
  (0x116ab, 0x116ab), (0x116ad, 0x116ad), (0x116b0, 0x116b5), (0x116b7, 0x116b7), (0x1171d, 0x1171f), (0x11722, 0x11725),
  (0x11727, 0x1172b), (0x1182f, 0x11837), (0x11839, 0x1183a), (0x1193b, 0x1193c), (0x1193e, 0x1193e), (0x11943, 0x11943),
  (0x119d4, 0x119d7), (0x119da, 0x119db), (0x119e0, 0x119e0), (0x11a01, 0x11a0a), (0x11a33, 0x11a38), (0x11a3b, 0x11a3e),
  (0x11a47, 0x11a47), (0x11a51, 0x11a56), (0x11a59, 0x11a5b), (0x11a8a, 0x11a96), (0x11a98, 0x11a99), (0x11c30, 0x11c36),
  (0x11c38, 0x11c3d), (0x11c3f, 0x11c3f), (0x11c92, 0x11ca7), (0x11caa, 0x11cb0), (0x11cb2, 0x11cb3), (0x11cb5, 0x11cb6),
  (0x11d31, 0x11d36), (0x11d3a, 0x11d3a), (0x11d3c, 0x11d3d), (0x11d3f, 0x11d45), (0x11d47, 0x11d47), (0x11d90, 0x11d91),
  (0x11d95, 0x11d95), (0x11d97, 0x11d97), (0x11ef3, 0x11ef4), (0x13430, 0x13438), (0x16af0, 0x16af4), (0x16b30, 0x16b36),
  (0x16b40, 0x16b43), (0x16f4f, 0x16f4f), (0x16f8f, 0x16f9f), (0x16fe0, 0x16fe1), (0x16fe3, 0x16fe4), (0x1aff0, 0x1aff3),
  (0x1aff5, 0x1affb), (0x1affd, 0x1affe), (0x1bc9d, 0x1bc9e), (0x1bca0, 0x1bca3), (0x1cf00, 0x1cf2d), (0x1cf30, 0x1cf46),
  (0x1d167, 0x1d169), (0x1d173, 0x1d182), (0x1d185, 0x1d18b), (0x1d1aa, 0x1d1ad), (0x1d242, 0x1d244), (0x1da00, 0x1da36),
  (0x1da3b, 0x1da6c), (0x1da75, 0x1da75), (0x1da84, 0x1da84), (0x1da9b, 0x1da9f), (0x1daa1, 0x1daaf), (0x1e000, 0x1e006),
  (0x1e008, 0x1e018), (0x1e01b, 0x1e021), (0x1e023, 0x1e024), (0x1e026, 0x1e02a), (0x1e130, 0x1e13d), (0x1e2ae, 0x1e2ae),
  (0x1e2ec, 0x1e2ef), (0x1e8d0, 0x1e8d6), (0x1e944, 0x1e94b), (0x1f3fb, 0x1f3ff), (0xe0001, 0xe0001), (0xe0020, 0xe007f),
  (0xe0100, 0xe01ef)
]

/-- Tests membership of a code point in a list of inclusive ranges. -/
def inRanges (rs : List (Nat × Nat)) (n : Nat) : Bool :=
  rs.any (fun p => p.1 ≤ n && n ≤ p.2)

/-- Cased property of a character. -/
def isCased (c : Char) : Bool := inRanges casedRanges c.toNat

/-- Case_Ignorable property of a character. -/
def isCaseIgnorable (c : Char) : Bool := inRanges caseIgnorableRanges c.toNat

/-- Default full lowercase mapping of one code point: an ASCII fast path,
then the table, identity elsewhere. The contextual Final_Sigma rule is the
business of jsToLower, not of this map. -/
def jsToLowerChar (c : Char) : List Char :=
  if c.toNat < 0x80 then
    if 'A' ≤ c && c ≤ 'Z' then [Char.ofNat (c.toNat + 32)] else [c]
  else
    match lowerTable.lookup c.toNat with
    | some ls => ls.map Char.ofNat
    | none => [c]

/-- Tests whether the first character of the list that is not case-ignorable
is cased: the look-ahead half of the Final_Sigma context. -/
def followedByCased : List Char → Bool
  | [] => false
  | c :: rest => if isCaseIgnorable c then followedByCased rest else isCased c

/-- Worker for toLowerCase. The flag records whether a cased character
precedes the current position, skipping case-ignorable characters; a capital
sigma preceded and not followed by a cased character lowers to the final
form U+03C2, as the Unicode Default Case Conversion prescribes, and to
U+03C3 elsewhere. Capital sigma is itself cased. -/
def jsToLowerAux : Bool → List Char → List Char
  | _, [] => []
  | prevCased, c :: rest =>
    if c = Char.ofNat 0x3a3 then
      (if prevCased && !(followedByCased rest) then [Char.ofNat 0x3c2]
       else [Char.ofNat 0x3c3]) ++ jsToLowerAux true rest
    else
      jsToLowerChar c ++
        jsToLowerAux (if isCaseIgnorable c then prevCased else isCased c) rest

/-- Model of str.toLowerCase(): the Unicode Default Case Conversion
toLowercase with the full per-code-point mappings of lowerTable, the
two-code-point expansion of U+0130, and the Final_Sigma context rule. -/
def jsToLower (l : List Char) : List Char := jsToLowerAux false l

/-- Tests whether the pattern is a prefix of the second list. -/
def startsWithList : List Char → List Char → Bool
  | [], _ => true
  | _ :: _, [] => false
  | p :: ps, c :: cs => p = c && startsWithList ps cs

/-- Tests whether the pattern occurs contiguously anywhere in the list. -/
def containsList (sub : List Char) : List Char → Bool
  | [] => startsWithList sub []
  | c :: rest => startsWithList sub (c :: rest) || containsList sub rest

/-- Model of a.includes(b): contiguous substring test. -/
def jsIncludes (s sub : String) : Bool := containsList sub.data s.data

/-! ## Character frequency -/

/-- One step of the frequency loop: freq[ch] = (freq[ch] || 0) + 1 on an
association list, incrementing in place or appending a fresh key. -/
def bump : List (Char × Nat) → Char → List (Char × Nat)
  | [], c => [(c, 1)]
  | (k, v) :: rest, c =>
    if k = c then (k, v + 1) :: rest else (k, v) :: bump rest c

/-- Model of the for (const ch of value) frequency loop; for...of iterates
Unicode code points, so the keys are scalar values, not UTF-16 units. JS
object key enumeration reorders digit-like keys first, but no claim depends
on key order, so insertion order is kept. -/
def charFrequency (value : List Char) : List (Char × Nat) :=
  value.foldl bump []

/-- Model of the crypto library digest call sha256Hex. The digest algorithm
lives outside this repository; no claim inspects digest bits, so it is
modelled as an injective tagging of the input. -/
def sha256Hex (s : String) : String := "sha256:" ++ s

/-! ## The analyzer -/

/-- Result record of analyse, one field per field of the JS object. -/
structure AnalysisRecord where
  string : String
  length : Nat
  isPalindrome : Bool
  wordCount : Nat
  uniqueCharacters : Nat
  characterFrequency : List (Char × Nat)
  sha256 : String
deriving DecidableEq

/-- Model of analyse(value) from server.js, field for field. -/
def analyse (value : String) : AnalysisRecord :=
  let cleaned := sanitizeForPalindrome value.data
  { string := value
    length := utf16Len value
    isPalindrome := decide (0 < cleaned.length) && cleaned == cleaned.reverse
    wordCount := (wordsOf value.data).length
    uniqueCharacters := (charFrequency value.data).length
    characterFrequency := charFrequency value.data
    sha256 := sha256Hex value }

/-! ## The store -/

/-- In-memory store: Map of string to analysis record, in insertion order. -/
abbrev Store := List (String × AnalysisRecord)

/-- Model of store.has(k). -/
def mapHas (store : Store) (k : String) : Bool :=
  store.any (fun p => p.1 == k)

/-- Model of store.get(k). -/
def mapGet (store : Store) (k : String) : Option AnalysisRecord :=
  (store.find? (fun p => p.1 == k)).map Prod.snd

/-- Model of store.set(k, v): update in place, or append a fresh key at the
end (Map preserves insertion order). -/
def mapSet : Store → String → AnalysisRecord → Store
  | [], k, v => [(k, v)]
  | (k0, v0) :: rest, k, v =>
    if k0 == k then (k0, v) :: rest else (k0, v0) :: mapSet rest k v

/-- Model of store.delete(k). -/
def mapDelete : Store → String → Store
  | [], _ => []
  | (k0, v0) :: rest, k =>
    if k0 == k then rest else (k0, v0) :: mapDelete rest k

/-- Model of Array.from(store.values()). -/
def storeValues (store : Store) : List AnalysisRecord :=
  store.map Prod.snd

/-! ## The Number() conversion

Number(string) first parses the trimmed text by the StringNumericLiteral
grammar (a signed decimal literal with optional fraction and exponent, or an
unsigned 0x/0o/0b radix integer literal), then rounds the exact mathematical
value of the literal to the nearest IEEE-754 binary64 double, ties to even,
overflowing to Infinity beyond the largest finite double. The handlers guard
every conversion with Number.isFinite, so the model returns the exact value
of the resulting double when it is finite and none when the text converts to
NaN or to an infinity. -/

/-- Finite binary64 value num * 2 ^ exp, as produced by the rounding below;
the mantissa bound follows from the rounding and is not tracked in the type. -/
structure JsDouble where
  num : Int
  exp : Int
deriving DecidableEq

/-- Rational value of the double, for specification-level statements. -/
def JsDouble.toRat (a : JsDouble) : ℚ :=
  if 0 ≤ a.exp then ((a.num * 2 ^ a.exp.toNat : Int) : ℚ)
  else mkRat a.num (2 ^ (-a.exp).toNat)

/-- Tests a ≤ n for a natural n by integer cross-multiplication. -/
def JsDouble.leNat (a : JsDouble) (n : Nat) : Bool :=
  if 0 ≤ a.exp then a.num * 2 ^ a.exp.toNat ≤ (n : Int)
  else a.num ≤ (n : Int) * 2 ^ (-a.exp).toNat

/-- Tests n ≤ a for a natural n by integer cross-multiplication. -/
def JsDouble.natLe (n : Nat) (a : JsDouble) : Bool :=
  if 0 ≤ a.exp then (n : Int) ≤ a.num * 2 ^ a.exp.toNat
  else (n : Int) * 2 ^ (-a.exp).toNat ≤ a.num

/-- Tests a < n for a natural n by integer cross-multiplication. -/
def JsDouble.ltNat (a : JsDouble) (n : Nat) : Bool :=
  if 0 ≤ a.exp then a.num * 2 ^ a.exp.toNat < (n : Int)
  else a.num < (n : Int) * 2 ^ (-a.exp).toNat

/-- Tests n < a for a natural n by integer cross-multiplication. -/
def JsDouble.natLt (n : Nat) (a : JsDouble) : Bool :=
  if 0 ≤ a.exp then (n : Int) < a.num * 2 ^ a.exp.toNat
  else (n : Int) * 2 ^ (-a.exp).toNat < a.num

/-- Tests a = n for a natural n by integer cross-multiplication. -/
def JsDouble.eqNat (a : JsDouble) (n : Nat) : Bool :=
  if 0 ≤ a.exp then a.num * 2 ^ a.exp.toNat = (n : Int)
  else a.num = (n : Int) * 2 ^ (-a.exp).toNat

/-- Tail-recursive worker for the binary digit count, with explicit fuel;
numbers of 256 bits or more are cut down a block at a time so that
evaluation stays shallow on large literals. -/
def bitsAux : Nat → Nat → Nat → Nat
  | _, 0, acc => acc
  | 0, _ + 1, acc => acc
  | f + 1, n + 1, acc =>
    if n + 1 < 2 ^ 256 then bitsAux f ((n + 1) / 2) (acc + 1)
    else bitsAux f ((n + 1) / 2 ^ 256) (acc + 256)

/-- Number of binary digits of n (0 for 0); n itself is always enough fuel. -/
def bits (n : Nat) : Nat := bitsAux n n 0

/-- Numerator of the exact value M * 10 ^ p10 as a fraction of naturals. -/
def qNum (M : Nat) (p10 : Int) : Nat :=
  if 0 ≤ p10 then M * 10 ^ p10.toNat else M

/-- Denominator of the exact value M * 10 ^ p10. -/
def qDen (p10 : Int) : Nat :=
  if 0 ≤ p10 then 1 else 10 ^ (-p10).toNat

/-- Tests 2 ^ e ≤ M * 10 ^ p10 by cross-multiplication. -/
def powTwoLeQ (M : Nat) (p10 : Int) (e : Int) : Bool :=
  if 0 ≤ e then qDen p10 * 2 ^ e.toNat ≤ qNum M p10
  else qDen p10 ≤ qNum M p10 * 2 ^ (-e).toNat

/-- Floor of the base-two logarithm of M * 10 ^ p10, for M ≥ 1: the binary
digit counts of numerator and denominator bracket it to two candidates and
one comparison decides between them. -/
def floorLog2Q (M : Nat) (p10 : Int) : Int :=
  let e1 : Int := (bits (qNum M p10) : Int) - (bits (qDen p10) : Int)
  if powTwoLeQ M p10 e1 then e1 else e1 - 1

/-- Rounds N / D to the nearest integer, ties to even. -/
def roundHalfEvenDiv (N D : Nat) : Nat :=
  let q := N / D
  let r := N % D
  if 2 * r < D then q
  else if D < 2 * r then q + 1
  else if q % 2 = 0 then q else q + 1

/-- Rounds the exact non-negative value M * 10 ^ p10 to the nearest binary64
double, ties to even: the kept precision is 52 fractional bits below the
leading bit for values of normal magnitude and the fixed scale 2 ^ -1074 in
the subnormal range, and a result of magnitude 2 ^ 1024 or more after
rounding overflows to Infinity (none). -/
def roundPosToDouble (M : Nat) (p10 : Int) : Option JsDouble :=
  let e := floorLog2Q M p10
  let shift : Int := if e < -1022 then 1074 else 52 - e
  let N := if 0 ≤ shift then qNum M p10 * 2 ^ shift.toNat else qNum M p10
  let D := if 0 ≤ shift then qDen p10 else qDen p10 * 2 ^ (-shift).toNat
  let n := roundHalfEvenDiv N D
  let overflow : Bool :=
    if 0 ≤ shift then 2 ^ 1024 * 2 ^ shift.toNat ≤ n
    else 2 ^ 1024 ≤ n * 2 ^ (-shift).toNat
  if overflow then none else some ⟨(n : Int), -shift⟩

/-- Applies the sign of the literal to the rounded double. -/
def roundToDouble (neg : Bool) (M : Nat) (p10 : Int) : Option JsDouble :=
  (roundPosToDouble M p10).map (fun d => if neg then ⟨-d.num, d.exp⟩ else d)

/-- Parses an unsigned JS decimal literal (digits, optional fraction,
optional exponent; the whole list must be consumed) into its exact value,
returned as the mantissa-digits value M and the power of ten p10 with
literal value M * 10 ^ p10. -/
def parseDecimal (l : List Char) : Option (Nat × Int) :=
  let ip := l.takeWhile jsDigit
  let r1 := l.dropWhile jsDigit
  let fp :=
    match r1 with
    | '.' :: rest => rest.takeWhile jsDigit
    | _ => []
  let r2 :=
    match r1 with
    | '.' :: rest => rest.dropWhile jsDigit
    | _ => r1
  if ip.isEmpty && fp.isEmpty then none
  else
    let M := digitsToNat (ip ++ fp)
    match r2 with
    | [] => some (M, -(fp.length : Int))
    | e :: rest =>
      if e = 'e' || e = 'E' then
        let sgn : Bool :=
          match rest with
          | '-' :: _ => false
          | _ => true
        let ds :=
          match rest with
          | '+' :: t => t
          | '-' :: t => t
          | t => t
        let ed := ds.takeWhile jsDigit
        if ed.isEmpty || !(ds.dropWhile jsDigit).isEmpty then none
        else
          some (M, (if sgn then (digitsToNat ed : Int) else -(digitsToNat ed : Int))
            - (fp.length : Int))
      else none

/-- Value of one digit in the given radix, hex letters in either case. -/
def radixDigit (base : Nat) (c : Char) : Option Nat :=
  let v : Option Nat :=
    if '0' ≤ c && c ≤ '9' then some (c.toNat - 48)
    else if 'a' ≤ c && c ≤ 'f' then some (c.toNat - 87)
    else if 'A' ≤ c && c ≤ 'F' then some (c.toNat - 55)
    else none
  match v with
  | some v => if v < base then some v else none
  | none => none

/-- Accumulates radix digits; fails on the first character outside the
radix. -/
def parseRadixAux (base : Nat) : List Char → Nat → Option Nat
  | [], acc => some acc
  | c :: rest, acc =>
    match radixDigit base c with
    | some v => parseRadixAux base rest (acc * base + v)
    | none => none

/-- Parses a non-empty run of radix digits filling the whole list. -/
def parseRadix (base : Nat) (l : List Char) : Option Nat :=
  match l with
  | [] => none
  | _ :: _ => parseRadixAux base l 0

/-- Parses a decimal literal of the given sign and rounds it. -/
def decimalToDouble (neg : Bool) (l : List Char) : Option JsDouble :=
  match parseDecimal l with
  | none => none
  | some Mp => roundToDouble neg Mp.1 Mp.2

/-- Model of Number(s) combined with the Number.isFinite guard the handlers
apply to it: the exact value of the resulting double when the text converts
to a finite number, none when it converts to NaN or an infinity, whether
from non-numeric text, the Infinity literal, or rounding overflow. The empty
and all-whitespace strings convert to 0; the 0x/0o/0b radix integer
literals carry no sign, as in the grammar. -/
def jsNumber (s : String) : Option JsDouble :=
  match jsTrim s.data with
  | [] => some ⟨0, 0⟩
  | '+' :: rest => decimalToDouble false rest
  | '-' :: rest => decimalToDouble true rest
  | '0' :: c :: rest =>
    if c = 'x' || c = 'X' then
      match parseRadix 16 rest with
      | none => none
      | some M => roundPosToDouble M 0
    else if c = 'o' || c = 'O' then
      match parseRadix 8 rest with
      | none => none
      | some M => roundPosToDouble M 0
    else if c = 'b' || c = 'B' then
      match parseRadix 2 rest with
      | none => none
      | some M => roundPosToDouble M 0
    else decimalToDouble false ('0' :: c :: rest)
  | t => decimalToDouble false t

/-! ## Request and response shapes -/

/-- Parsed JSON value, the shape of req.body under the JSON body parser.
Objects parsed from JSON text have unique keys (JSON.parse keeps the last
duplicate), so field lookup takes the first match. -/
inductive Json where
  | null
  | bool (b : Bool)
  | num (n : Int)
  | str (s : String)
  | arr (elems : List Json)
  | obj (fields : List (String × Json))

/-- Tests Object.prototype.hasOwnProperty.call(payload, "value"): only a
JSON object can own the field (primitives autobox to fieldless wrappers). -/
def hasValueField : Json → Bool
  | .obj fields => fields.any (fun p => p.1 == "value")
  | _ => false

/-- Field lookup on a JSON object. -/
def getField : Json → String → Option Json
  | .obj fields, k => (fields.find? (fun p => p.1 == k)).map Prod.snd
  | _, _ => none

/-- Response body: an error object, a single record, a count/data
collection, or the empty 204 body. -/
inductive Body where
  | err (msg : String)
  | record (r : AnalysisRecord)
  | coll (count : Nat) (data : List AnalysisRecord)
  | empty
deriving DecidableEq

/-- Status code paired with the response body. -/
abbrev Response := Nat × Body

/-! ## POST /strings -/

/-- Model of the POST /strings handler: returns the response and the store
after the request. req.body being absent is modelled as none. -/
def postStrings (body : Option Json) (store : Store) : Response × Store :=
  match body with
  | none => ((400, .err "Missing \x27value\x27 field"), store)
  | some .null => ((400, .err "Missing \x27value\x27 field"), store)
  | some payload =>
    if hasValueField payload then
      match getField payload "value" with
      | some (.str value) =>
        if mapHas store value then
          ((409, .err "String already exists"), store)
        else
          ((201, .record (analyse value)), mapSet store value (analyse value))
      | _ => ((422, .err "\x27value\x27 must be a string"), store)
    else ((400, .err "Missing \x27value\x27 field"), store)

/-! ## GET /strings/:value and DELETE /strings/:value -/

/-- Model of the GET /strings/:value handler. -/
def getStringsByValue (value : String) (store : Store) : Response :=
  match mapGet store value with
  | none => (404, .err "String not found")
  | some r => (200, .record r)

/-- Model of the DELETE /strings/:value handler. -/
def deleteStrings (value : String) (store : Store) : Response × Store :=
  if mapHas store value then ((204, .empty), mapDelete store value)
  else ((404, .err "String not found"), store)

/-! ## GET /strings (structured filters) -/

/-- Query parameters of the list/filter endpoint, each as the raw string the
query parser produced, or none when absent. -/
structure FilterParams where
  isPalindrome : Option String
  minLength : Option String
  maxLength : Option String
  wordCount : Option String
  contains : Option String

/-- Step for the isPalindrome parameter: reject anything but the two boolean
literals, otherwise filter on the boolean field. -/
def applyIsPal (v : Option String) (rs : List AnalysisRecord) :
    Except Response (List AnalysisRecord) :=
  match v with
  | none => .ok rs
  | some s =>
    if s ≠ "true" ∧ s ≠ "false" then
      .error (400, .err "isPalindrome must be \x27true\x27 or \x27false\x27")
    else
      .ok (rs.filter (fun r => r.isPalindrome == (s == "true")))

/-- Step for the minLength parameter. -/
def applyMinLength (v : Option String) (rs : List AnalysisRecord) :
    Except Response (List AnalysisRecord) :=
  match v with
  | none => .ok rs
  | some s =>
    match jsNumber s with
    | none => .error (400, .err "minLength must be a number")
    | some n => .ok (rs.filter (fun r => n.leNat r.length))

/-- Step for the maxLength parameter. -/
def applyMaxLength (v : Option String) (rs : List AnalysisRecord) :
    Except Response (List AnalysisRecord) :=
  match v with
  | none => .ok rs
  | some s =>
    match jsNumber s with
    | none => .error (400, .err "maxLength must be a number")
    | some n => .ok (rs.filter (fun r => JsDouble.natLe r.length n))

/-- Step for the wordCount parameter (strict equality with the number). -/
def applyWordCount (v : Option String) (rs : List AnalysisRecord) :
    Except Response (List AnalysisRecord) :=
  match v with
  | none => .ok rs
  | some s =>
    match jsNumber s with
    | none => .error (400, .err "wordCount must be a number")
    | some n => .ok (rs.filter (fun r => n.eqNat r.wordCount))

/-- Step for the contains parameter: case-sensitive substring. -/
def applyContains (v : Option String) (rs : List AnalysisRecord) :
    Except Response (List AnalysisRecord) :=
  match v with
  | none => .ok rs
  | some sub => .ok (rs.filter (fun r => jsIncludes r.string sub))

/-- Model of the GET /strings handler: the filters run in source order with
early return on the first invalid parameter, then count and data are sent. -/
def getStrings (p : FilterParams) (store : Store) : Response :=
  match applyIsPal p.isPalindrome (storeValues store) with
  | .error e => e
  | .ok r1 =>
    match applyMinLength p.minLength r1 with
    | .error e => e
    | .ok r2 =>
      match applyMaxLength p.maxLength r2 with
      | .error e => e
      | .ok r3 =>
        match applyWordCount p.wordCount r3 with
        | .error e => e
        | .ok r4 =>
          match applyContains p.contains r4 with
          | .error e => e
          | .ok rs => (200, .coll rs.length rs)

/-! ## GET /strings/query (natural language) -/

/-- Consumes the literal at the head of the list and returns the remainder,
or none when the list does not start with the literal. -/
def dropLit : List Char → List Char → Option (List Char)
  | [], rest => some rest
  | _ :: _, [] => none
  | p :: ps, c :: cs => if p = c then dropLit ps cs else none

/-- Model of lower.match(regex of lit followed by captured digits+): finds
the first position where the literal occurs immediately followed by at least
one digit, and returns the value of the maximal digit run there. -/
def scanNumTemplate (lit : List Char) : List Char → Option Nat
  | [] => none
  | c :: rest =>
    match dropLit lit (c :: rest) with
    | some after =>
      let ds := after.takeWhile jsDigit
      if ds.isEmpty then scanNumTemplate lit rest else some (digitsToNat ds)
    | none => scanNumTemplate lit rest

/-- Membership in the regex class [a-z0-9 backslash-s hyphen underscore]
with the i flag, the token class of the contains template. -/
def containsTokenChar (c : Char) : Bool :=
  ('a' ≤ c && c ≤ 'z') || ('A' ≤ c && c ≤ 'Z') || ('0' ≤ c && c ≤ '9') ||
  jsWs c || c = '-' || c = '_'

/-- Model of lower.match(regex contains, optional quote, captured token
class run): first position where the literal is followed by an optional
quote and at least one token character; returns the maximal token run. -/
def scanContains : List Char → Option (List Char)
  | [] => none
  | c :: rest =>
    match dropLit ("contains ".data) (c :: rest) with
    | some after =>
      let after2 :=
        match after with
        | q :: cs => if q = '"' || q = '\x27' then cs else q :: cs
        | [] => []
      let tok := after2.takeWhile containsTokenChar
      if tok.isEmpty then scanContains rest else some tok
    | none => scanContains rest

/-- Model of the GET /strings/query handler. The expression !q is true for
an absent or empty parameter. A captured digit run is converted by Number
and guarded by Number.isFinite: a run whose value rounds to Infinity (309 or
more significant digits) draws the 422 invalid-number answer. -/
def getStringsQuery (q : Option String) (store : Store) : Response :=
  match q with
  | none => (400, .err "Missing query parameter \x27q\x27")
  | some qs =>
    if qs = "" then (400, .err "Missing query parameter \x27q\x27")
    else
      let lower := jsToLower qs.data
      let results := storeValues store
      if containsList ("palind".data) lower then
        let rs := results.filter (fun r => r.isPalindrome)
        (200, .coll rs.length rs)
      else if containsList ("single word".data) lower ||
          containsList ("single-word".data) lower then
        let rs := results.filter (fun r => r.wordCount == 1)
        (200, .coll rs.length rs)
      else
        match scanNumTemplate ("longer than ".data) lower with
        | some m =>
          match roundPosToDouble m 0 with
          | none => (422, .err "Invalid number in query")
          | some n =>
            let rs := results.filter (fun r => n.ltNat r.length)
            (200, .coll rs.length rs)
        | none =>
          match scanNumTemplate ("shorter than ".data) lower with
          | some m =>
            match roundPosToDouble m 0 with
            | none => (422, .err "Invalid number in query")
            | some n =>
              let rs := results.filter (fun r => JsDouble.natLt r.length n)
              (200, .coll rs.length rs)
          | none =>
            match scanContains lower with
            | some tok =>
              let rs := results.filter
                (fun r => containsList (jsToLower tok) (jsToLower r.string.data))
              (200, .coll rs.length rs)
            | none => (400, .err "Could not interpret query")

/-! ## GET route dispatch -/

/-- The three GET routes of server.js in their registration order. -/
inductive GetRoute where
  | byValue
  | listRoute
  | nlQuery
deriving DecidableEq

/-- Tests whether a route pattern matches a path, given as its non-empty
segments: /strings/:value matches any two-segment path under /strings,
/strings the bare collection path, /strings/query the literal path. -/
def routeMatches : GetRoute → List String → Bool
  | .byValue, segs => segs.length == 2 && segs.head? == some "strings"
  | .listRoute, segs => segs == ["strings"]
  | .nlQuery, segs => segs == ["strings", "query"]

/-- Express tries GET routes in registration order and the first whose
pattern matches the path handles the request. server.js registers
/strings/:value before /strings and /strings/query. -/
def dispatchGet (segs : List String) : Option GetRoute :=
  [GetRoute.byValue, GetRoute.listRoute, GetRoute.nlQuery].find?
    (fun r => routeMatches r segs)

/-- Query-string data a GET request may carry: the q parameter and the
structured filter parameters. -/
structure GetQuery where
  q : Option String
  filters : FilterParams

/-- Full model of a GET request: dispatch on the path segments in
registration order, then run the matched handler. -/
def handleGet (segs : List String) (gq : GetQuery) (store : Store) : Response :=
  match dispatchGet segs with
  | some .byValue => getStringsByValue (segs.getD 1 "") store
  | some .listRoute => getStrings gq.filters store
  | some .nlQuery => getStringsQuery gq.q store
  | none => (404, .err "Not Found")

/-! ## Specification-side definitions

These are written from the wording of the specification, independently of
the handler code, and the theorems below compare the two. -/

/-- Spec wording for the palindrome projection: remove every character
outside [0-9a-zA-Z] and lowercase the remainder. Uses the library character
predicates rather than the regex model. -/
def specProjection (s : String) : List Char :=
  (s.data.filter Char.isAlphanum).map Char.toLower

mutual

/-- Spec wording for wordCount: the number of whitespace-delimited tokens,
that is, of maximal runs of non-whitespace characters; runs of whitespace
count as one delimiter and leading/trailing whitespace contributes nothing. -/
def countTokens : List Char → Nat
  | [] => 0
  | c :: rest => if jsWs c then countTokens rest else 1 + countInTok rest

/-- Continuation of countTokens while inside a token. -/
def countInTok : List Char → Nat
  | [] => 0
  | c :: rest => if jsWs c then countTokens rest else countInTok rest

end

/-- Absence of trailing whitespace, the shape jsTrim guarantees. -/
def noTrailWs (l : List Char) : Prop :=
  ∀ c, l.getLast? = some c → jsWs c = false

/-- Validity of the isPalindrome query parameter: absent, or one of the two
boolean literals. -/
def palValid (o : Option String) : Prop :=
  ∀ s, o = some s → s = "true" ∨ s = "false"

/-- Validity of a numeric query parameter: absent, or convertible to a
finite number. -/
def numValid (o : Option String) : Prop :=
  ∀ s, o = some s → (jsNumber s).isSome = true

/-- Spec reading of the isPalindrome predicate: absent imposes nothing,
otherwise the boolean field must equal the requested literal. -/
def palPiece (o : Option String) (r : AnalysisRecord) : Bool :=
  match o with
  | none => true
  | some s => r.isPalindrome == (s == "true")

/-- Spec reading of minLength: keep records whose length is at least the
rational value of the parameter. -/
def minPiece (o : Option String) (r : AnalysisRecord) : Bool :=
  match o with
  | none => true
  | some s =>
    match jsNumber s with
    | none => false
    | some a => decide (a.toRat ≤ (r.length : ℚ))

/-- Spec reading of maxLength: keep records whose length is at most the
rational value of the parameter. -/
def maxPiece (o : Option String) (r : AnalysisRecord) : Bool :=
  match o with
  | none => true
  | some s =>
    match jsNumber s with
    | none => false
    | some a => decide ((r.length : ℚ) ≤ a.toRat)

/-- Spec reading of wordCount: keep records whose word count equals the
rational value of the parameter. -/
def wcPiece (o : Option String) (r : AnalysisRecord) : Bool :=
  match o with
  | none => true
  | some s =>
    match jsNumber s with
    | none => false
    | some a => decide ((r.wordCount : ℚ) = a.toRat)

/-- Spec reading of contains: keep records whose string has the parameter
as a literal, case-sensitive substring. -/
def containsPiece (o : Option String) (r : AnalysisRecord) : Bool :=
  match o with
  | none => true
  | some sub => jsIncludes r.string sub

/-- Spec wording for the filter conjunction: a record matches when every
supplied predicate holds of it, an absent predicate imposing no constraint;
the numeric comparisons are stated over the rational value of the parameter. -/
def specMatch (p : FilterParams) (r : AnalysisRecord) : Bool :=
  palPiece p.isPalindrome r && minPiece p.minLength r &&
  maxPiece p.maxLength r && wcPiece p.wordCount r &&
  containsPiece p.contains r

/-- Request body of a well-formed create request for the value v. -/
def createReq (v : String) : Option Json :=
  some (.obj [("value", .str v)])

/-- Filter parameter record with nothing supplied. -/
def noFilters : FilterParams :=
  ⟨none, none, none, none, none⟩

/-! ## Store lemmas -/

theorem mapHas_mapSet_self (store : Store) (k : String) (a : AnalysisRecord) :
    mapHas (mapSet store k a) k = true := by
  induction store with
  | nil => simp [mapSet, mapHas]
  | cons p rest ih =>
    obtain ⟨k0, v0⟩ := p
    cases hk : k0 == k with
    | true => simp [mapSet, mapHas, hk]
    | false => simpa [mapSet, mapHas, hk] using ih

theorem mapDelete_mapSet (store : Store) (k : String) (a : AnalysisRecord)
    (h : mapHas store k = false) : mapDelete (mapSet store k a) k = store := by
  induction store with
  | nil => simp [mapSet, mapDelete]
  | cons p rest ih =>
    obtain ⟨k0, v0⟩ := p
    simp only [mapHas, List.any_cons, Bool.or_eq_false_iff] at h
    have hk : (k0 == k) = false := h.1
    have hrest : mapHas rest k = false := by simpa [mapHas] using h.2
    simp [mapSet, mapDelete, hk, ih hrest]

/-! ## Number lemmas

The integer cross-multiplied comparisons of JsDouble agree with the rational
comparisons of its value; 2 ^ k is positive, so no side condition is needed. -/

theorem JsDouble.leNat_eq_decide (a : JsDouble) (n : Nat) :
    a.leNat n = decide (a.toRat ≤ (n : ℚ)) := by
  rw [JsDouble.leNat, JsDouble.toRat]
  by_cases h : (0 : Int) ≤ a.exp
  · rw [if_pos h, if_pos h]
    refine decide_eq_decide.mpr ?_
    exact_mod_cast Iff.rfl
  · rw [if_neg h, if_neg h]
    refine decide_eq_decide.mpr ?_
    rw [Rat.mkRat_eq_div, div_le_iff₀ (by positivity)]
    exact_mod_cast Iff.rfl

theorem JsDouble.natLe_eq_decide (a : JsDouble) (n : Nat) :
    JsDouble.natLe n a = decide ((n : ℚ) ≤ a.toRat) := by
  rw [JsDouble.natLe, JsDouble.toRat]
  by_cases h : (0 : Int) ≤ a.exp
  · rw [if_pos h, if_pos h]
    refine decide_eq_decide.mpr ?_
    exact_mod_cast Iff.rfl
  · rw [if_neg h, if_neg h]
    refine decide_eq_decide.mpr ?_
    rw [Rat.mkRat_eq_div, le_div_iff₀ (by positivity)]
    exact_mod_cast Iff.rfl

theorem JsDouble.ltNat_eq_decide (a : JsDouble) (n : Nat) :
    a.ltNat n = decide (a.toRat < (n : ℚ)) := by
  rw [JsDouble.ltNat, JsDouble.toRat]
  by_cases h : (0 : Int) ≤ a.exp
  · rw [if_pos h, if_pos h]
    refine decide_eq_decide.mpr ?_
    exact_mod_cast Iff.rfl
  · rw [if_neg h, if_neg h]
    refine decide_eq_decide.mpr ?_
    rw [Rat.mkRat_eq_div, div_lt_iff₀ (by positivity)]
    exact_mod_cast Iff.rfl

theorem JsDouble.natLt_eq_decide (a : JsDouble) (n : Nat) :
    JsDouble.natLt n a = decide ((n : ℚ) < a.toRat) := by
  rw [JsDouble.natLt, JsDouble.toRat]
  by_cases h : (0 : Int) ≤ a.exp
  · rw [if_pos h, if_pos h]
    refine decide_eq_decide.mpr ?_
    exact_mod_cast Iff.rfl
  · rw [if_neg h, if_neg h]
    refine decide_eq_decide.mpr ?_
    rw [Rat.mkRat_eq_div, lt_div_iff₀ (by positivity)]
    exact_mod_cast Iff.rfl

theorem JsDouble.eqNat_eq_decide (a : JsDouble) (n : Nat) :
    a.eqNat n = decide ((n : ℚ) = a.toRat) := by
  rw [JsDouble.eqNat, JsDouble.toRat]
  by_cases h : (0 : Int) ≤ a.exp
  · rw [if_pos h, if_pos h]
    refine decide_eq_decide.mpr ?_
    constructor
    · intro h2
      exact_mod_cast h2.symm
    · intro h2
      exact_mod_cast h2.symm
  · rw [if_neg h, if_neg h]
    refine decide_eq_decide.mpr ?_
    rw [Rat.mkRat_eq_div, eq_div_iff (by positivity)]
    constructor
    · intro h2
      exact_mod_cast h2.symm
    · intro h2
      exact_mod_cast h2.symm

/-! ## Filter lemmas -/

theorem filter_true_eq {α : Type} (l : List α) : l.filter (fun _ => true) = l := by
  induction l with
  | nil => rfl
  | cons x xs ih => rw [List.filter_cons]; simp [ih]

theorem filter_fuse {α : Type} (p q : α → Bool) (l : List α) :
    (l.filter p).filter q = l.filter (fun a => p a && q a) := by
  induction l with
  | nil => rfl
  | cons x xs ih =>
    cases hp : p x <;> cases hq : q x <;>
      simp [List.filter_cons, hp, hq, ih]

theorem filter_ext {α : Type} (p q : α → Bool) (l : List α)
    (h : ∀ a, p a = q a) : l.filter p = l.filter q := by
  induction l with
  | nil => rfl
  | cons x xs ih => rw [List.filter_cons, List.filter_cons, h x, ih]

theorem applyIsPal_ok (o : Option String) (rs : List AnalysisRecord)
    (ho : palValid o) :
    applyIsPal o rs = .ok (rs.filter (palPiece o)) := by
  match o with
  | none =>
    simp only [applyIsPal]
    rw [filter_ext (palPiece none) (fun _ => true) rs (fun r => by simp [palPiece]),
      filter_true_eq]
  | some s =>
    rcases ho s rfl with h | h <;> subst h <;>
      (simp only [applyIsPal]
       rw [if_neg (by decide)]
       exact congrArg Except.ok (filter_ext _ _ rs (fun r => by simp [palPiece])))

theorem applyMinLength_ok (o : Option String) (rs : List AnalysisRecord)
    (ho : numValid o) :
    applyMinLength o rs = .ok (rs.filter (minPiece o)) := by
  match o with
  | none =>
    simp only [applyMinLength]
    rw [filter_ext (minPiece none) (fun _ => true) rs (fun r => by simp [minPiece]),
      filter_true_eq]
  | some s =>
    obtain ⟨a, ha⟩ := Option.isSome_iff_exists.mp (ho s rfl)
    simp only [applyMinLength, ha]
    congr 1
    refine filter_ext _ _ rs (fun r => ?_)
    rw [JsDouble.leNat_eq_decide a r.length]
    simp [minPiece, ha]

theorem applyMaxLength_ok (o : Option String) (rs : List AnalysisRecord)
    (ho : numValid o) :
    applyMaxLength o rs = .ok (rs.filter (maxPiece o)) := by
  match o with
  | none =>
    simp only [applyMaxLength]
    rw [filter_ext (maxPiece none) (fun _ => true) rs (fun r => by simp [maxPiece]),
      filter_true_eq]
  | some s =>
    obtain ⟨a, ha⟩ := Option.isSome_iff_exists.mp (ho s rfl)
    simp only [applyMaxLength, ha]
    congr 1
    refine filter_ext _ _ rs (fun r => ?_)
    rw [JsDouble.natLe_eq_decide a r.length]
    simp [maxPiece, ha]

theorem applyWordCount_ok (o : Option String) (rs : List AnalysisRecord)
    (ho : numValid o) :
    applyWordCount o rs = .ok (rs.filter (wcPiece o)) := by
  match o with
  | none =>
    simp only [applyWordCount]
    rw [filter_ext (wcPiece none) (fun _ => true) rs (fun r => by simp [wcPiece]),
      filter_true_eq]
  | some s =>
    obtain ⟨a, ha⟩ := Option.isSome_iff_exists.mp (ho s rfl)
    simp only [applyWordCount, ha]
    congr 1
    refine filter_ext _ _ rs (fun r => ?_)
    rw [JsDouble.eqNat_eq_decide a r.wordCount]
    simp [wcPiece, ha]

theorem applyContains_ok (o : Option String) (rs : List AnalysisRecord) :
    applyContains o rs = .ok (rs.filter (containsPiece o)) := by
  match o with
  | none =>
    simp only [applyContains]
    rw [filter_ext (containsPiece none) (fun _ => true) rs
      (fun r => by simp [containsPiece]), filter_true_eq]
  | some sub =>
    simp only [applyContains]
    exact congrArg Except.ok (filter_ext _ _ rs (fun r => by simp [containsPiece]))

/-! ## Claim theorems -/

/-- C1: the spec requires a GET whose query parameter q matches a template
to be answered 200 by the natural-language handler, but server.js registers
GET /strings/:value before GET /strings/query, so the path /strings/query is
captured by the get-by-value route: with an empty store the request
GET /strings/query?q=find palindromes yields 404 String not found from the
by-value handler instead of 200 with a count/data body. -/
theorem nl_filter_shadowed_by_value_route :
    dispatchGet ["strings", "query"] = some GetRoute.byValue ∧
    handleGet ["strings", "query"] ⟨some "find palindromes", noFilters⟩ [] =
      (404, Body.err "String not found") := by
  constructor
  · rfl
  · rfl

/-- C2: the create operation answers 400 when the body owns no value field,
422 when the value is present but not a string, 409 when the exact string is
already stored, and otherwise 201 with the full analysis record, storing the
record under the exact string. -/
theorem create_validation_and_insert (body : Option Json) (store : Store) :
    ((∀ payload, body = some payload → hasValueField payload = false) →
       postStrings body store = ((400, .err "Missing \x27value\x27 field"), store)) ∧
    (∀ payload j, body = some payload → hasValueField payload = true →
       getField payload "value" = some j → (∀ v, j ≠ .str v) →
       postStrings body store = ((422, .err "\x27value\x27 must be a string"), store)) ∧
    (∀ payload v, body = some payload → hasValueField payload = true →
       getField payload "value" = some (.str v) → mapHas store v = true →
       postStrings body store = ((409, .err "String already exists"), store)) ∧
    (∀ payload v, body = some payload → hasValueField payload = true →
       getField payload "value" = some (.str v) → mapHas store v = false →
       postStrings body store =
         ((201, .record (analyse v)), mapSet store v (analyse v))) := by
  refine ⟨?h400, ?h422, ?h409, ?h201⟩
  case h400 =>
    intro h
    match body with
    | none => rfl
    | some .null => rfl
    | some (.bool b) => simp [postStrings, h _ rfl]
    | some (.num n) => simp [postStrings, h _ rfl]
    | some (.str s) => simp [postStrings, h _ rfl]
    | some (.arr es) => simp [postStrings, h _ rfl]
    | some (.obj fs) => simp [postStrings, h _ rfl]
  case h422 =>
    intro payload j hb hv hf hns
    subst hb
    match payload, hv with
    | .obj fs, hv =>
      match j, hns with
      | .null, _ => simp [postStrings, hv, hf]
      | .bool b, _ => simp [postStrings, hv, hf]
      | .num n, _ => simp [postStrings, hv, hf]
      | .arr es, _ => simp [postStrings, hv, hf]
      | .obj fs2, _ => simp [postStrings, hv, hf]
      | .str v, hns => exact absurd rfl (hns v)
  case h409 =>
    intro payload v hb hv hf hhas
    subst hb
    match payload, hv with
    | .obj fs, hv => simp [postStrings, hv, hf, hhas]
  case h201 =>
    intro payload v hb hv hf hhas
    subst hb
    match payload, hv with
    | .obj fs, hv => simp [postStrings, hv, hf, hhas]

/-- Witness for C2: creating "ab" in the empty store succeeds with 201 and
stores the record under the exact string. -/
theorem create_validation_and_insert_witness :
    postStrings (createReq "ab") [] =
      ((201, .record (analyse "ab")), mapSet [] "ab" (analyse "ab")) :=
  (create_validation_and_insert (createReq "ab") []).2.2.2
    (.obj [("value", .str "ab")]) "ab" rfl rfl rfl rfl

/-- C7: create succeeds exactly when the key is absent; a second create of
the same value answers 409 and leaves the store unchanged, and after a
delete the same value can be created again with 201. -/
theorem create_conflict_delete_cycle (v : String) (store : Store)
    (h : mapHas store v = false) :
    (∀ s : Store, ((postStrings (createReq v) s).1.1 = 201 ↔ mapHas s v = false)) ∧
    (postStrings (createReq v) store).1.1 = 201 ∧
    (postStrings (createReq v) (postStrings (createReq v) store).2 =
       ((409, .err "String already exists"), (postStrings (createReq v) store).2)) ∧
    (deleteStrings v (postStrings (createReq v) store).2).1 = (204, .empty) ∧
    (postStrings (createReq v) (deleteStrings v (postStrings (createReq v) store).2).2).1.1
      = 201 := by
  have hiff : ∀ s : Store, ((postStrings (createReq v) s).1.1 = 201 ↔ mapHas s v = false) := by
    intro s
    cases hs : mapHas s v with
    | true => simp [postStrings, createReq, hasValueField, getField, hs]
    | false => simp [postStrings, createReq, hasValueField, getField, hs]
  have h1 : postStrings (createReq v) store =
      ((201, .record (analyse v)), mapSet store v (analyse v)) := by
    simp [postStrings, createReq, hasValueField, getField, h]
  refine ⟨hiff, ?_, ?_, ?_, ?_⟩
  · rw [h1]
  · rw [h1]
    have h2 : mapHas (mapSet store v (analyse v)) v = true := mapHas_mapSet_self store v _
    simp [postStrings, createReq, hasValueField, getField, h2]
  · rw [h1]
    have h2 : mapHas (mapSet store v (analyse v)) v = true := mapHas_mapSet_self store v _
    simp [deleteStrings, h2]
  · rw [h1]
    have h2 : mapHas (mapSet store v (analyse v)) v = true := mapHas_mapSet_self store v _
    have h3 : deleteStrings v (mapSet store v (analyse v)) =
        ((204, .empty), store) := by
      simp [deleteStrings, h2, mapDelete_mapSet store v _ h]
    rw [h3]
    exact (hiff store).mpr h

/-- Witness for C7: the cycle for the value "a" starting from the empty
store. -/
theorem create_conflict_delete_cycle_witness :
    (postStrings (createReq "a") []).1.1 = 201 ∧
    (postStrings (createReq "a") (postStrings (createReq "a") []).2).1.1 = 409 := by
  have h := create_conflict_delete_cycle "a" [] rfl
  refine ⟨h.2.1, ?_⟩
  rw [h.2.2.1]

/-- C8: a failing create (status other than 201) leaves the store exactly as
it was and answers with a structured error body, and a failing delete
(status other than 204) removes nothing and answers 404 with an error body. -/
theorem failed_ops_atomic_error_bodies (body : Option Json) (store : Store) (v : String) :
    ((postStrings body store).1.1 ≠ 201 →
       (postStrings body store).2 = store ∧
       ∃ m, (postStrings body store).1.2 = .err m) ∧
    ((deleteStrings v store).1.1 ≠ 204 →
       (deleteStrings v store).2 = store ∧
       (deleteStrings v store).1 = (404, .err "String not found")) := by
  constructor
  · intro hne
    match body with
    | none => exact ⟨rfl, _, rfl⟩
    | some .null => exact ⟨rfl, _, rfl⟩
    | some (.bool b) => exact ⟨rfl, _, rfl⟩
    | some (.num n) => exact ⟨rfl, _, rfl⟩
    | some (.str s) => exact ⟨rfl, _, rfl⟩
    | some (.arr es) => exact ⟨rfl, _, rfl⟩
    | some (.obj fs) =>
      by_cases hv : hasValueField (.obj fs) = true
      · match hf : getField (.obj fs) "value" with
        | some (.str s) =>
          cases hs : mapHas store s with
          | true => simp [postStrings, hv, hf, hs]
          | false => exact absurd (by simp [postStrings, hv, hf, hs]) hne
        | some .null => simp [postStrings, hv, hf]
        | some (.bool b) => simp [postStrings, hv, hf]
        | some (.num n) => simp [postStrings, hv, hf]
        | some (.arr es) => simp [postStrings, hv, hf]
        | some (.obj fs2) => simp [postStrings, hv, hf]
        | none => simp [postStrings, hv, hf]
      · simp only [Bool.not_eq_true] at hv
        simp [postStrings, hv]
  · intro hne
    cases hs : mapHas store v with
    | true => exact absurd (by simp [deleteStrings, hs]) hne
    | false => simp [deleteStrings, hs]

/-- Witness for C8: a create with a non-string value fails with 422, stores
nothing, and carries an error body; deleting from the empty store fails with
404 and removes nothing. -/
theorem failed_ops_atomic_error_bodies_witness :
    (postStrings (some (.obj [("value", .num 3)])) []).2 = ([] : Store) ∧
    (deleteStrings "x" ([] : Store)).2 = ([] : Store) := by
  have h := failed_ops_atomic_error_bodies (some (.obj [("value", .num 3)])) [] "x"
  exact ⟨(h.1 (by decide)).1, (h.2 (by decide)).1⟩

/-- C5: on the list/filter operation, a numeric parameter that does not
convert to a finite number draws a 400 error naming that parameter (the
first offending one in source order), and when every supplied numeric
parameter converts to a finite number the request is never rejected: the
status is 200. Scoped to requests whose isPalindrome parameter passes its
own, earlier check. -/
theorem numeric_param_validation (p : FilterParams) (store : Store)
    (hp : palValid p.isPalindrome) :
    (∀ s, p.minLength = some s → jsNumber s = none →
       getStrings p store = (400, .err "minLength must be a number")) ∧
    (numValid p.minLength →
       ∀ s, p.maxLength = some s → jsNumber s = none →
       getStrings p store = (400, .err "maxLength must be a number")) ∧
    (numValid p.minLength → numValid p.maxLength →
       ∀ s, p.wordCount = some s → jsNumber s = none →
       getStrings p store = (400, .err "wordCount must be a number")) ∧
    (numValid p.minLength → numValid p.maxLength → numValid p.wordCount →
       (getStrings p store).1 = 200) := by
  refine ⟨?min, ?max, ?wc, ?ok⟩
  case min =>
    intro s hs hn
    simp [getStrings, applyIsPal_ok _ _ hp, applyMinLength, hs, hn]
  case max =>
    intro hmin s hs hn
    simp [getStrings, applyIsPal_ok _ _ hp, applyMinLength_ok _ _ hmin,
      applyMaxLength, hs, hn]
  case wc =>
    intro hmin hmax s hs hn
    simp [getStrings, applyIsPal_ok _ _ hp, applyMinLength_ok _ _ hmin,
      applyMaxLength_ok _ _ hmax, applyWordCount, hs, hn]
  case ok =>
    intro hmin hmax hwc
    simp [getStrings, applyIsPal_ok _ _ hp, applyMinLength_ok _ _ hmin,
      applyMaxLength_ok _ _ hmax, applyWordCount_ok _ _ hwc, applyContains_ok]

/-- Witness for C5: minLength=1e999 converts to Infinity and is rejected
with 400 naming minLength, while minLength=0x10 (the hex literal, finite 16)
is accepted with status 200. -/
theorem numeric_param_validation_witness :
    getStrings ⟨none, some "1e999", none, none, none⟩ [] =
      (400, .err "minLength must be a number") ∧
    (getStrings ⟨none, some "0x10", none, none, none⟩ []).1 = 200 := by
  constructor
  · exact (numeric_param_validation ⟨none, some "1e999", none, none, none⟩ []
      (fun s h => nomatch h)).1 "1e999" rfl (by decide)
  · exact (numeric_param_validation ⟨none, some "0x10", none, none, none⟩ []
      (fun s h => nomatch h)).2.2.2
      (fun s h => by injection h with h2; subst h2; decide)
      (fun s h => nomatch h) (fun s h => nomatch h)

/-- C6: with valid parameters, the list/filter operation answers 200 with
exactly the stored records satisfying the conjunction of the supplied
predicates (an absent predicate imposing no constraint), and the count field
equals the number of matched records. -/
theorem filter_conjunction_matches (p : FilterParams) (store : Store)
    (hp : palValid p.isPalindrome) (h1 : numValid p.minLength)
    (h2 : numValid p.maxLength) (h3 : numValid p.wordCount) :
    getStrings p store =
      (200, .coll ((storeValues store).filter (specMatch p)).length
        ((storeValues store).filter (specMatch p))) := by
  simp only [getStrings, applyIsPal_ok _ _ hp, applyMinLength_ok _ _ h1,
    applyMaxLength_ok _ _ h2, applyWordCount_ok _ _ h3, applyContains_ok]
  rw [filter_fuse, filter_fuse, filter_fuse, filter_fuse]
  rw [filter_ext _ (specMatch p) (storeValues store) ?pointwise]
  case pointwise =>
    intro r
    simp only [specMatch, Bool.and_assoc]

/-- Witness for C6: with stored records of lengths 3, 5 and 7, the request
minLength=4 with maxLength=6 returns exactly the length-5 record with count
1; and maxLength=0.99999999999999999 keeps a length-1 record, because that
literal rounds to the double 1.0. -/
theorem filter_conjunction_matches_witness :
    getStrings ⟨none, some "4", some "6", none, none⟩
      [("aaa", analyse "aaa"), ("bbbbb", analyse "bbbbb"),
       ("ccccccc", analyse "ccccccc")] =
      (200, .coll 1 [analyse "bbbbb"]) ∧
    getStrings ⟨none, none, some "0.99999999999999999", none, none⟩
      [("a", analyse "a")] = (200, .coll 1 [analyse "a"]) := by
  constructor
  · have h := filter_conjunction_matches ⟨none, some "4", some "6", none, none⟩
      [("aaa", analyse "aaa"), ("bbbbb", analyse "bbbbb"),
       ("ccccccc", analyse "ccccccc")]
      (fun s hs => nomatch hs)
      (fun s hs => by injection hs with h2; subst h2; decide)
      (fun s hs => by injection hs with h2; subst h2; decide)
      (fun s hs => nomatch hs)
    rw [h]
    decide
  · have h := filter_conjunction_matches
      ⟨none, none, some "0.99999999999999999", none, none⟩
      [("a", analyse "a")]
      (fun s hs => nomatch hs)
      (fun s hs => nomatch hs)
      (fun s hs => by injection hs with h2; subst h2; decide)
      (fun s hs => nomatch hs)
    rw [h]
    decide

/-! ## Character class equivalences for C3 -/

theorem isJsAlnum_eq_isAlphanum (c : Char) : isJsAlnum c = c.isAlphanum := by
  show (c.isDigit || c.isLower || c.isUpper) = c.isAlphanum
  simp [Char.isAlphanum, Char.isAlpha]
  ac_rfl

theorem upperRange_eq (c : Char) :
    (('A' ≤ c && c ≤ 'Z') = true) ↔ (c.toNat ≥ 65 ∧ c.toNat ≤ 90) := by
  rw [Bool.and_eq_true, decide_eq_true_eq, decide_eq_true_eq]
  constructor
  · rintro ⟨h1, h2⟩
    exact ⟨h1, h2⟩
  · rintro ⟨h1, h2⟩
    exact ⟨h1, h2⟩

theorem toLowerAscii_eq_toLower (c : Char) : toLowerAscii c = c.toLower := by
  rw [toLowerAscii, Char.toLower]
  by_cases h : c.toNat ≥ 65 ∧ c.toNat ≤ 90
  · rw [if_pos ((upperRange_eq c).mpr h), if_pos h]
  · rw [if_neg (fun hb => h ((upperRange_eq c).mp hb)), if_neg h]

theorem sanitize_eq_specProjection (s : String) :
    sanitizeForPalindrome s.data = specProjection s := by
  rw [sanitizeForPalindrome, specProjection,
    filter_ext isJsAlnum Char.isAlphanum s.data isJsAlnum_eq_isAlphanum,
    funext toLowerAscii_eq_toLower]

/-- C3: analyse marks a string as a palindrome exactly when the projection
that keeps only [0-9a-zA-Z] characters and lowercases them is non-empty and
equal to its own reversal; a string whose projection is empty is never a
palindrome. -/
theorem palindrome_iff_sanitized_projection (s : String) :
    (analyse s).isPalindrome = true ↔
      (specProjection s ≠ [] ∧ specProjection s = (specProjection s).reverse) := by
  show (decide (0 < (sanitizeForPalindrome s.data).length) &&
      (sanitizeForPalindrome s.data == (sanitizeForPalindrome s.data).reverse)) = true ↔ _
  rw [sanitize_eq_specProjection]
  rw [Bool.and_eq_true, decide_eq_true_eq, beq_iff_eq, List.length_pos]

/-- C4 counterexample: a longer-than query whose digit run converts to
Infinity (here 10 to the power 309) is answered 422 Invalid number in query,
not with a 200 filtered result as the claim describes for every matching
longer-than query. -/
theorem nl_longer_overflow_draws_422 :
    getStringsQuery
      (some ("longer than 1" ++ String.mk (List.replicate 309 '0'))) [] =
      (422, Body.err "Invalid number in query") ∧
    getStringsQuery
      (some ("longer than 1" ++ String.mk (List.replicate 309 '0'))) [] ≠
      (200, Body.coll 0 []) := by
  have h : getStringsQuery
      (some ("longer than 1" ++ String.mk (List.replicate 309 '0'))) [] =
      (422, Body.err "Invalid number in query") := by decide
  refine ⟨h, ?_⟩
  rw [h]
  decide

/-- C4 as amended: the natural-language handler tries its templates in a
fixed order with the first match winning and no combination: a query
containing palind (after lowercasing) selects the palindrome predicate
regardless of the other templates; otherwise single word or single-word
selects wordCount 1; otherwise longer than N keeps length strictly greater
than the double value of N when the digit run converts to a finite double
and draws the 422 invalid-number error when it converts to Infinity;
otherwise shorter than N likewise with strictly less; otherwise a contains
token does a case-insensitive substring match; and when no template matches
the answer is the 400 uninterpretable error. -/
theorem nl_templates_ordered_first_match (q : String) (store : Store) (hq : q ≠ "") :
    (containsList ("palind".data) (jsToLower q.data) = true →
       getStringsQuery (some q) store =
         (200, .coll ((storeValues store).filter (fun r => r.isPalindrome)).length
           ((storeValues store).filter (fun r => r.isPalindrome)))) ∧
    (containsList ("palind".data) (jsToLower q.data) = false →
     (containsList ("single word".data) (jsToLower q.data) ||
        containsList ("single-word".data) (jsToLower q.data)) = true →
       getStringsQuery (some q) store =
         (200, .coll ((storeValues store).filter (fun r => r.wordCount == 1)).length
           ((storeValues store).filter (fun r => r.wordCount == 1)))) ∧
    (containsList ("palind".data) (jsToLower q.data) = false →
     (containsList ("single word".data) (jsToLower q.data) ||
        containsList ("single-word".data) (jsToLower q.data)) = false →
     ∀ m, scanNumTemplate ("longer than ".data) (jsToLower q.data) = some m →
       (roundPosToDouble m 0 = none →
          getStringsQuery (some q) store = (422, .err "Invalid number in query")) ∧
       (∀ d, roundPosToDouble m 0 = some d →
          getStringsQuery (some q) store =
            (200, .coll
              ((storeValues store).filter
                (fun r => decide (d.toRat < (r.length : ℚ)))).length
              ((storeValues store).filter
                (fun r => decide (d.toRat < (r.length : ℚ))))))) ∧
    (containsList ("palind".data) (jsToLower q.data) = false →
     (containsList ("single word".data) (jsToLower q.data) ||
        containsList ("single-word".data) (jsToLower q.data)) = false →
     scanNumTemplate ("longer than ".data) (jsToLower q.data) = none →
     ∀ m, scanNumTemplate ("shorter than ".data) (jsToLower q.data) = some m →
       (roundPosToDouble m 0 = none →
          getStringsQuery (some q) store = (422, .err "Invalid number in query")) ∧
       (∀ d, roundPosToDouble m 0 = some d →
          getStringsQuery (some q) store =
            (200, .coll
              ((storeValues store).filter
                (fun r => decide ((r.length : ℚ) < d.toRat))).length
              ((storeValues store).filter
                (fun r => decide ((r.length : ℚ) < d.toRat)))))) ∧
    (containsList ("palind".data) (jsToLower q.data) = false →
     (containsList ("single word".data) (jsToLower q.data) ||
        containsList ("single-word".data) (jsToLower q.data)) = false →
     scanNumTemplate ("longer than ".data) (jsToLower q.data) = none →
     scanNumTemplate ("shorter than ".data) (jsToLower q.data) = none →
     ∀ tok, scanContains (jsToLower q.data) = some tok →
       getStringsQuery (some q) store =
         (200, .coll
           ((storeValues store).filter
             (fun r => containsList (jsToLower tok) (jsToLower r.string.data))).length
           ((storeValues store).filter
             (fun r => containsList (jsToLower tok) (jsToLower r.string.data))))) ∧
    (containsList ("palind".data) (jsToLower q.data) = false →
     (containsList ("single word".data) (jsToLower q.data) ||
        containsList ("single-word".data) (jsToLower q.data)) = false →
     scanNumTemplate ("longer than ".data) (jsToLower q.data) = none →
     scanNumTemplate ("shorter than ".data) (jsToLower q.data) = none →
     scanContains (jsToLower q.data) = none →
       getStringsQuery (some q) store = (400, .err "Could not interpret query")) := by
  refine ⟨?pal, ?single, ?longer, ?shorter, ?contains, ?fail⟩
  case pal =>
    intro h1
    simp only [getStringsQuery, if_neg hq, h1, if_true]
  case single =>
    intro h1 h2
    simp only [getStringsQuery, if_neg hq, h1, h2, Bool.false_eq_true, if_false, if_true]
  case longer =>
    intro h1 h2 m h3
    constructor
    · intro h4
      simp only [getStringsQuery, if_neg hq, h1, h2, h3, h4, Bool.false_eq_true, if_false]
    · intro d h4
      simp only [getStringsQuery, if_neg hq, h1, h2, h3, h4, Bool.false_eq_true, if_false]
      rw [filter_ext (fun r => d.ltNat r.length)
        (fun r => decide (d.toRat < (r.length : ℚ))) (storeValues store)
        (fun r => JsDouble.ltNat_eq_decide d r.length)]
  case shorter =>
    intro h1 h2 h3 m h4
    constructor
    · intro h5
      simp only [getStringsQuery, if_neg hq, h1, h2, h3, h4, h5,
        Bool.false_eq_true, if_false]
    · intro d h5
      simp only [getStringsQuery, if_neg hq, h1, h2, h3, h4, h5,
        Bool.false_eq_true, if_false]
      rw [filter_ext (fun r => JsDouble.natLt r.length d)
        (fun r => decide ((r.length : ℚ) < d.toRat)) (storeValues store)
        (fun r => JsDouble.natLt_eq_decide d r.length)]
  case contains =>
    intro h1 h2 h3 h4 tok h5
    simp only [getStringsQuery, if_neg hq, h1, h2, h3, h4, h5, Bool.false_eq_true, if_false]
  case fail =>
    intro h1 h2 h3 h4 h5
    simp only [getStringsQuery, if_neg hq, h1, h2, h3, h4, h5, Bool.false_eq_true, if_false]

/-- Witness for C4: the query find palindromes selects the palindrome
predicate on the empty store, and strings longer than 5 filters by strict
length against a two-record store, 5 converting to the double of value 5. -/
theorem nl_templates_ordered_first_match_witness :
    getStringsQuery (some "find palindromes") [] = (200, .coll 0 []) ∧
    getStringsQuery (some "strings longer than 5")
      [("aaa", analyse "aaa"), ("bbbbbbb", analyse "bbbbbbb")] =
      (200, .coll 1 [analyse "bbbbbbb"]) := by
  constructor
  · have h := (nl_templates_ordered_first_match "find palindromes" []
      (by decide)).1 (by decide)
    rw [h]
    decide
  · have h := ((nl_templates_ordered_first_match "strings longer than 5"
      [("aaa", analyse "aaa"), ("bbbbbbb", analyse "bbbbbbb")]
      (by decide)).2.2.1 (by decide) (by decide) 5 (by decide)).2
      ⟨5 * 2 ^ 50, -50⟩ (by decide)
    rw [h]
    decide

/-! ## Word splitting lemmas for C9 -/

theorem noTrailWs_nil : noTrailWs [] := by
  intro c hc
  exact absurd hc (by simp)

theorem noTrailWs_tail (c : Char) (rest : List Char)
    (h : noTrailWs (c :: rest)) : noTrailWs rest := by
  match rest with
  | [] => exact noTrailWs_nil
  | d :: t =>
    intro e he
    exact h e (by rw [List.getLast?_cons_cons]; exact he)

theorem noTrailWs_head_ws_ne_nil (c : Char) (rest : List Char)
    (h : noTrailWs (c :: rest)) (hw : jsWs c = true) : rest ≠ [] := by
  intro he
  subst he
  have := h c rfl
  rw [this] at hw
  exact absurd hw (by simp)

theorem splitWs_len_core :
    ∀ fuel l, l.length ≤ fuel → noTrailWs l →
      ((∀ acc : List Char, (splitWsAux l acc).length = 1 + countInTok l) ∧
       (l ≠ [] → (splitWsStart l).length = countTokens l)) := by
  intro fuel
  induction fuel with
  | zero =>
    intro l hl hnt
    match l, hl with
    | [], _ =>
      exact ⟨fun acc => by simp [splitWsAux, countInTok], fun h => absurd rfl h⟩
  | succ n ih =>
    intro l hl hnt
    match l with
    | [] =>
      exact ⟨fun acc => by simp [splitWsAux, countInTok], fun h => absurd rfl h⟩
    | c :: rest =>
      have hrl : rest.length ≤ n := by
        simp only [List.length_cons] at hl
        omega
      have hnt' : noTrailWs rest := noTrailWs_tail c rest hnt
      constructor
      · intro acc
        cases hw : jsWs c with
        | true =>
          have hne : rest ≠ [] := noTrailWs_head_ws_ne_nil c rest hnt hw
          have hS := (ih rest hrl hnt').2 hne
          simp [splitWsAux, hw, hS, countInTok]
          omega
        | false =>
          have hA := (ih rest hrl hnt').1
          simp [splitWsAux, hw, hA, countInTok]
      · intro _
        cases hw : jsWs c with
        | true =>
          have hne : rest ≠ [] := noTrailWs_head_ws_ne_nil c rest hnt hw
          have hS := (ih rest hrl hnt').2 hne
          simp [splitWsStart, hw, hS, countTokens]
        | false =>
          have hA := (ih rest hrl hnt').1
          simp [splitWsStart, hw, hA, countTokens, countInTok]

theorem countTokens_dropWhile (l : List Char) :
    countTokens (l.dropWhile jsWs) = countTokens l := by
  induction l with
  | nil => rfl
  | cons c rest ih =>
    cases hw : jsWs c with
    | true => simp [List.dropWhile_cons, hw, countTokens, ih]
    | false => simp [List.dropWhile_cons, hw, countTokens]

theorem countTokens_all_ws :
    ∀ w : List Char, (∀ c ∈ w, jsWs c = true) →
      countTokens w = 0 ∧ countInTok w = 0 := by
  intro w
  induction w with
  | nil => exact fun _ => ⟨rfl, rfl⟩
  | cons c rest ih =>
    intro h
    have hc : jsWs c = true := h c (by simp)
    have hr := ih (fun d hd => h d (by simp [hd]))
    exact ⟨by simp [countTokens, hc, hr.1], by simp [countInTok, hc, hr.1]⟩

theorem countTokens_append_ws :
    ∀ l w : List Char, (∀ c ∈ w, jsWs c = true) →
      countTokens (l ++ w) = countTokens l ∧ countInTok (l ++ w) = countInTok l := by
  intro l
  induction l with
  | nil =>
    intro w hw
    have := countTokens_all_ws w hw
    simpa [countTokens, countInTok] using this
  | cons c rest ih =>
    intro w hw
    have hr := ih w hw
    cases hc : jsWs c with
    | true =>
      exact ⟨by simp [countTokens, hc, hr.1], by simp [countInTok, hc, hr.1]⟩
    | false =>
      exact ⟨by simp [countTokens, hc, hr.2], by simp [countInTok, hc, hr.2]⟩

theorem trimRight_decomp (m : List Char) :
    m = (m.reverse.dropWhile jsWs).reverse ++ (m.reverse.takeWhile jsWs).reverse ∧
    (∀ c ∈ (m.reverse.takeWhile jsWs).reverse, jsWs c = true) := by
  constructor
  · calc m = m.reverse.reverse := (List.reverse_reverse m).symm
      _ = (List.takeWhile jsWs m.reverse ++ List.dropWhile jsWs m.reverse).reverse := by
            rw [List.takeWhile_append_dropWhile]
      _ = (List.dropWhile jsWs m.reverse).reverse ++
            (List.takeWhile jsWs m.reverse).reverse := List.reverse_append _ _
  · intro c hc
    rw [List.mem_reverse] at hc
    exact List.mem_takeWhile_imp hc

theorem countTokens_jsTrim (l : List Char) :
    countTokens (jsTrim l) = countTokens l := by
  obtain ⟨hdec, hws⟩ := trimRight_decomp (l.dropWhile jsWs)
  have h1 : countTokens (l.dropWhile jsWs) = countTokens (jsTrim l) := by
    conv_lhs => rw [hdec]
    exact (countTokens_append_ws (jsTrim l) _ hws).1
  rw [← h1, countTokens_dropWhile]

theorem head_dropWhile_not (p : Char → Bool) (l : List Char) :
    ∀ c, (l.dropWhile p).head? = some c → p c = false := by
  induction l with
  | nil => intro c hc; exact absurd hc (by simp)
  | cons d rest ih =>
    intro c hc
    cases hd : p d with
    | true =>
      rw [List.dropWhile_cons, if_pos (by rw [hd])] at hc
      exact ih c hc
    | false =>
      rw [List.dropWhile_cons, if_neg (by rw [hd]; simp)] at hc
      simp only [List.head?_cons, Option.some_inj] at hc
      rw [← hc]
      exact hd

theorem noTrailWs_jsTrim (l : List Char) : noTrailWs (jsTrim l) := by
  intro c hc
  rw [jsTrim, List.getLast?_reverse] at hc
  exact head_dropWhile_not jsWs (l.dropWhile jsWs).reverse c hc

theorem head_jsTrim_not_ws (l : List Char) (c : Char) (rest : List Char)
    (h : jsTrim l = c :: rest) : jsWs c = false := by
  obtain ⟨hdec, _⟩ := trimRight_decomp (l.dropWhile jsWs)
  have hjt : jsTrim l = (((l.dropWhile jsWs).reverse.dropWhile jsWs).reverse) := rfl
  rw [← hjt] at hdec
  rw [h] at hdec
  have : (l.dropWhile jsWs).head? = some c := by
    rw [hdec]
    rfl
  exact head_dropWhile_not jsWs l c this

/-- C9: wordCount is the number of whitespace-delimited tokens, that is, the
number of maximal runs of non-whitespace characters: leading and trailing
whitespace contributes nothing, runs of whitespace separate like a single
delimiter, and an empty or all-whitespace string yields 0. -/
theorem wordCount_counts_tokens (s : String) :
    (analyse s).wordCount = countTokens s.data := by
  show (wordsOf s.data).length = countTokens s.data
  rw [wordsOf]
  by_cases h : jsTrim s.data = []
  · rw [if_pos h]
    have h2 := countTokens_jsTrim s.data
    rw [h] at h2
    exact h2
  · rw [if_neg h]
    obtain ⟨c, rest, ht⟩ := List.exists_cons_of_ne_nil h
    have hnt : noTrailWs (jsTrim s.data) := noTrailWs_jsTrim s.data
    have hhead : jsWs c = false := head_jsTrim_not_ws s.data c rest ht
    rw [← countTokens_jsTrim s.data, ht]
    rw [ht] at hnt
    have hnt' : noTrailWs rest := noTrailWs_tail c rest hnt
    have hA := (splitWs_len_core rest.length rest le_rfl hnt').1 [c]
    simp [splitWsAux, hhead, hA, countTokens, countInTok]

/-! ## Frequency map lemmas for C10 -/

theorem bump_fst_mem (m : List (Char × Nat)) (d c : Char) :
    c ∈ (bump m d).map Prod.fst ↔ c ∈ m.map Prod.fst ∨ c = d := by
  induction m with
  | nil => simp [bump]
  | cons p rest ih =>
    obtain ⟨k, v⟩ := p
    by_cases hk : k = d
    · subst hk
      simp [bump]
      tauto
    · simp [bump, hk, ih]
      tauto

theorem bump_snd_pos (m : List (Char × Nat)) (d : Char)
    (h : ∀ p ∈ m, 1 ≤ p.2) : ∀ p ∈ bump m d, 1 ≤ p.2 := by
  induction m with
  | nil =>
    intro p hp
    simp [bump] at hp
    rw [hp]
  | cons q rest ih =>
    obtain ⟨k, v⟩ := q
    intro p hp
    by_cases hk : k = d
    · subst hk
      simp [bump] at hp
      rcases hp with hp | hp
      · rw [hp]
        exact Nat.succ_le_succ (Nat.zero_le v)
      · exact h p (by simp [hp])
    · simp [bump, hk] at hp
      rcases hp with hp | hp
      · exact h p (by simp [hp])
      · exact ih (fun q hq => h q (by simp [hq])) p hp

theorem bump_snd_sum (m : List (Char × Nat)) (d : Char) :
    ((bump m d).map Prod.snd).sum = (m.map Prod.snd).sum + 1 := by
  induction m with
  | nil => simp [bump]
  | cons q rest ih =>
    obtain ⟨k, v⟩ := q
    by_cases hk : k = d
    · subst hk
      simp [bump]
      omega
    · simp [bump, hk, ih]
      omega

theorem foldl_bump_fst_mem (l : List Char) :
    ∀ (m : List (Char × Nat)) (c : Char),
      c ∈ (l.foldl bump m).map Prod.fst ↔ c ∈ m.map Prod.fst ∨ c ∈ l := by
  induction l with
  | nil => intro m c; simp
  | cons x xs ih =>
    intro m c
    rw [List.foldl_cons, ih (bump m x) c, bump_fst_mem]
    simp
    tauto

theorem foldl_bump_snd_pos (l : List Char) :
    ∀ m : List (Char × Nat), (∀ p ∈ m, 1 ≤ p.2) →
      ∀ p ∈ l.foldl bump m, 1 ≤ p.2 := by
  induction l with
  | nil => intro m h; exact h
  | cons x xs ih =>
    intro m h
    rw [List.foldl_cons]
    exact ih (bump m x) (bump_snd_pos m x h)

theorem foldl_bump_snd_sum (l : List Char) :
    ∀ m : List (Char × Nat),
      ((l.foldl bump m).map Prod.snd).sum = (m.map Prod.snd).sum + l.length := by
  induction l with
  | nil => intro m; simp
  | cons x xs ih =>
    intro m
    rw [List.foldl_cons, ih (bump m x), bump_snd_sum]
    simp
    omega

theorem one_le_utf16Width (c : Char) : 1 ≤ utf16Width c := by
  rw [utf16Width]
  split <;> omega

theorem length_le_utf16_sum (l : List Char) :
    l.length ≤ (l.map utf16Width).sum := by
  induction l with
  | nil => simp
  | cons c rest ih =>
    have := one_le_utf16Width c
    simp only [List.length_cons, List.map_cons, List.sum_cons]
    omega

theorem astral_utf16Width (c : Char) (h : 65536 ≤ c.toNat) : utf16Width c = 2 := by
  rw [utf16Width, if_neg]
  intro hlt
  have h2 : c.toNat < 65536 := hlt
  omega

theorem length_lt_utf16_sum (l : List Char) (c : Char) (hc : c ∈ l)
    (h : 65536 ≤ c.toNat) : l.length < (l.map utf16Width).sum := by
  induction l with
  | nil => exact absurd hc (by simp)
  | cons d rest ih =>
    simp only [List.length_cons, List.map_cons, List.sum_cons]
    rcases List.mem_cons.mp hc with hd | hd
    · have h2 : utf16Width d = 2 := hd ▸ astral_utf16Width c h
      have h3 := length_le_utf16_sum rest
      omega
    · have h2 := one_le_utf16Width d
      have h3 := ih hd
      omega

/-- C10: the keys of characterFrequency are exactly the distinct code points
of the input, every stored count is at least 1, uniqueCharacters equals the
number of keys, the counts sum to the code-point count of the input, and the
code-point count is strictly smaller than the reported length field whenever
the input contains an astral (surrogate-pair) character, because the length
field counts UTF-16 code units while the frequency loop iterates code
points. -/
theorem characterFrequency_invariants (s : String) :
    (∀ c, c ∈ ((analyse s).characterFrequency).map Prod.fst ↔ c ∈ s.data) ∧
    (∀ p ∈ (analyse s).characterFrequency, 1 ≤ p.2) ∧
    (analyse s).uniqueCharacters = ((analyse s).characterFrequency).length ∧
    (((analyse s).characterFrequency).map Prod.snd).sum = s.data.length ∧
    ((∃ c ∈ s.data, 65536 ≤ c.toNat) → s.data.length < (analyse s).length) := by
  refine ⟨?keys, ?pos, ?uniq, ?sum, ?astral⟩
  case keys =>
    intro c
    show c ∈ (charFrequency s.data).map Prod.fst ↔ c ∈ s.data
    rw [charFrequency, foldl_bump_fst_mem]
    simp
  case pos =>
    intro p hp
    exact foldl_bump_snd_pos s.data [] (by simp) p hp
  case uniq => rfl
  case sum =>
    show ((charFrequency s.data).map Prod.snd).sum = s.data.length
    rw [charFrequency, foldl_bump_snd_sum]
    simp
  case astral =>
    rintro ⟨c, hc, h⟩
    show s.data.length < utf16Len s
    exact length_lt_utf16_sum s.data c hc h

/-- Witness for C10: a string holding one ASCII letter and one astral
character has code-point count 2 but reported length 3. -/
theorem characterFrequency_invariants_witness :
    (∃ c ∈ (String.mk [Char.ofNat 97, Char.ofNat 119070]).data, 65536 ≤ c.toNat) ∧
    (String.mk [Char.ofNat 97, Char.ofNat 119070]).data.length <
      (analyse (String.mk [Char.ofNat 97, Char.ofNat 119070])).length := by
  refine ⟨by decide, ?_⟩
  exact (characterFrequency_invariants
    (String.mk [Char.ofNat 97, Char.ofNat 119070])).2.2.2.2 (by decide)

end StringAnalyzer
